import Mathlib

/-!
Verification development for the AutoISF basal-determination emulator.

Shallow embedding of `src/aaps_emulator/autoisf_algorithm.py` and
`src/aaps_emulator/core/iob.py`.  Conventions:

* Python floats are modelled as exact rationals (`ℚ`); decimal literals such
  as `1.2` are the exact rationals `6/5` etc.
* Python's builtin `round` (used by `round_dec` and for durations/`carbsReq`)
  rounds to the nearest integer with ties to even; it is modelled by
  `pyRound` below.
* Python's `/` on floats raises `ZeroDivisionError` on a zero divisor; the
  main embedding uses Lean's total field division (`x / 0 = 0`), and the
  fallible fragment relevant to degenerate inputs is modelled separately by
  `checkedDiv` / `carbScaleFactors`.
* The human-readable `reason` string, `consoleLog` / `consoleError` lists and
  the `tick` string of the result are pure formatting and are omitted from
  the model; every numeric / structural field of the result is kept.
-/

namespace Aaps

/-- Python's builtin `round`: nearest integer, ties to even. -/
def pyRound (q : ℚ) : ℤ :=
  let n : ℤ := ⌊q⌋
  let r : ℚ := q - n
  if r < 1/2 then n
  else if 1/2 < r then n + 1
  else if Even n then n else n + 1

/-- Source `round_dec(value, digits)` from `autoisf_algorithm.py` lines 153-157
(the NaN guard is vacuous over `ℚ`). -/
def round_dec (value : ℚ) (digits : ℕ) : ℚ :=
  (pyRound (value * 10 ^ digits) : ℚ) / 10 ^ digits

/-- Source `calculate_expected_delta` (lines 175-178). -/
def calculate_expected_delta (target_bg eventual_bg bgi : ℚ) : ℚ :=
  round_dec (bgi + (target_bg - eventual_bg) / ((2 * 60) / 5)) 1

structure GlucoseStatus where
  glucose : ℚ
  delta : ℚ
  short_avg_delta : ℚ
  long_avg_delta : ℚ
  date : ℤ
  noise : ℚ


/-- Zero-temp companion entry of an `IobTotal` (only its activity is read,
line 634). -/
structure IobZT where
  iob : ℚ
  activity : ℚ


structure IobTotal where
  iob : ℚ
  activity : ℚ
  iob_with_zero_temp : Option IobZT := none

instance : Inhabited IobTotal := ⟨⟨0, 0, none⟩⟩


structure MealData where
  carbs : ℚ
  meal_cob : ℚ
  last_carb_time : ℤ
  slope_from_max_deviation : ℚ
  slope_from_min_deviation : ℚ


structure AutosensResult where
  autosensRatio : ℚ := 1


structure CurrentTemp where
  duration : ℤ
  rate : ℚ
  minutes_running : ℤ


structure Predictions where
  IOB : Option (List ℤ) := none
  COB : Option (List ℤ) := none
  aCOB : Option (List ℤ) := none
  UAM : Option (List ℤ) := none
  ZT : Option (List ℤ) := none


structure OapsProfileAutoIsf where
  min_bg : ℚ
  max_bg : ℚ
  target_bg : ℚ
  sens : ℚ
  carb_ratio : ℚ
  current_basal : ℚ
  max_basal : ℚ
  max_daily_basal : ℚ
  max_iob : ℚ
  autosens_max : ℚ
  sensitivity_raises_target : Bool
  resistance_lowers_target : Bool
  adv_target_adjustments : Bool
  enable_uam : Bool
  exercise_mode : Bool
  high_temptarget_raises_sensitivity : Bool
  low_temptarget_lowers_sensitivity : Bool
  half_basal_exercise_target : ℤ
  temptarget_set : Bool
  remainingCarbsCap : ℤ
  maxSMBBasalMinutes : ℤ
  maxUAMSMBBasalMinutes : ℤ
  bolus_increment : ℚ
  skip_neutral_temps : Bool
  enableSMB_always : Bool
  enableSMB_with_COB : Bool
  enableSMB_after_carbs : Bool
  enableSMB_with_temptarget : Bool
  allowSMB_with_high_temptarget : Bool
  SMBInterval : ℤ
  smb_delivery_ratio : ℚ
  smb_delivery_ratio_min : ℚ
  smb_delivery_ratio_max : ℚ
  smb_delivery_ratio_bg_range : ℚ
  smb_max_range_extension : ℚ
  variable_sens : ℚ


/-- Result record `RT` (strings and diagnostic logs omitted, see header). -/
structure RT where
  timestamp : ℤ := 0
  bg : Option ℚ := none
  eventualBG : Option ℚ := none
  targetBG : Option ℚ := none
  insulinReq : Option ℚ := none
  carbsReq : Option ℤ := none
  carbsReqWithin : Option ℤ := none
  deliverAt : Option ℤ := none
  sensitivityRatio : Option ℚ := none
  duration : Option ℤ := none
  rate : Option ℚ := none
  predBGs : Option Predictions := none
  COB : Option ℚ := none
  IOB : Option ℚ := none
  variable_sens : Option ℚ := none


/-- Source `get_max_safe_basal` (lines 181-188). -/
def get_max_safe_basal (profile : OapsProfileAutoIsf) : ℚ :=
  min profile.max_basal
    (min (profile.max_daily_basal * profile.autosens_max)
      (profile.current_basal * profile.autosens_max * 2))

/-- Source `set_temp_basal` (lines 191-240). -/
def set_temp_basal (rate : ℚ) (duration : ℤ) (profile : OapsProfileAutoIsf)
    (rT : RT) (currenttemp : CurrentTemp) : RT :=
  let max_safe_basal :=
    min profile.max_basal
      (min (profile.max_daily_basal * profile.autosens_max)
        (profile.current_basal * profile.autosens_max * 2))
  let rate1 := if rate < 0 then (0 : ℚ)
    else if max_safe_basal < rate then max_safe_basal else rate
  let suggested_rate := rate1
  if currenttemp.duration > duration - 10 ∧ currenttemp.duration ≤ 120 ∧
      suggested_rate ≤ currenttemp.rate * (12/10) ∧
      currenttemp.rate * (8/10) ≤ suggested_rate ∧ duration > 0 then
    rT
  else if |suggested_rate - profile.current_basal| < 1/1000000000 then
    (if profile.skip_neutral_temps then
      (if currenttemp.duration > 0 then
        { rT with duration := some 0, rate := some 0 }
      else rT)
    else
      { rT with duration := some duration, rate := some suggested_rate })
  else
    { rT with duration := some duration, rate := some suggested_rate }

/-- Source `enable_smb` (lines 243-280; console output dropped). -/
def enable_smb (profile : OapsProfileAutoIsf) (microbolus_allowed : Bool)
    (meal : MealData) (target_bg : ℚ) : Bool :=
  if ¬microbolus_allowed then false
  else if ¬profile.allowSMB_with_high_temptarget ∧ profile.temptarget_set ∧
      target_bg > 11/2 then false
  else if profile.enableSMB_always then true
  else if profile.enableSMB_with_COB ∧ meal.meal_cob ≠ 0 then true
  else if profile.enableSMB_after_carbs ∧ meal.carbs ≠ 0 then true
  else if profile.enableSMB_with_temptarget ∧ profile.temptarget_set ∧
      target_bg < 11/2 then true
  else false

/-- The argument tuple of `determine_basal_autoisf` (lines 288-306);
the two `auto_isf_console*` list arguments are log-only and omitted. -/
structure Inputs where
  glucose_status : GlucoseStatus
  currenttemp : CurrentTemp
  iob_data_array : List IobTotal
  profile : OapsProfileAutoIsf
  autosens_data : AutosensResult
  meal_data : MealData
  microBolusAllowed : Bool
  currentTime : ℤ
  flatBGsDetected : Bool
  autoIsfMode : Bool
  loop_wanted_smb : String
  profile_percentage : ℤ
  smb_ratio : ℚ
  smb_max_range_extension : ℚ
  iob_threshold_percent : ℤ

/-- Source `minAgo` (line 325). -/
def minAgo (inp : Inputs) : ℚ :=
  round_dec (((inp.currentTime - inp.glucose_status.date : ℤ) : ℚ) / 60000) 1

/-- The sensor-fault guard condition (lines 336-342). -/
def guardCondition (inp : Inputs) : Prop :=
  inp.glucose_status.glucose ≤ 3/5 ∨ inp.glucose_status.noise ≥ 3 ∨
  minAgo inp > 12 ∨ minAgo inp < -5 ∨
  (inp.glucose_status.glucose > 33/10 ∧ inp.flatBGsDetected)

instance (inp : Inputs) : Decidable (guardCondition inp) := by
  unfold guardCondition; infer_instance

/-- The terminal result of the sensor-fault guard (lines 343-357):
neutralise an over-high running temp, shorten an over-long zero temp,
or do nothing. -/
def guardRT (inp : Inputs) : RT :=
  let basal := inp.profile.current_basal
  let base : RT := { timestamp := inp.currentTime }
  if inp.currenttemp.rate > basal then
    { base with deliverAt := some inp.currentTime, duration := some 30,
                rate := some basal }
  else if inp.currenttemp.rate = 0 ∧ inp.currenttemp.duration > 30 then
    { base with deliverAt := some inp.currentTime, duration := some 30,
                rate := some 0 }
  else base

/-- Autosens-driven rescaling of the BG targets (lines 408-420): returns
`(min_bg, max_bg, target_bg)` after the adjustment. -/
def adjustTargetsAutosens (profile : OapsProfileAutoIsf) (aRatio : ℚ)
    (min_bg max_bg target_bg : ℚ) : ℚ × ℚ × ℚ :=
  if ¬profile.temptarget_set ∧
      ((profile.sensitivity_raises_target ∧ aRatio < 1) ∨
       (profile.resistance_lowers_target ∧ aRatio > 1)) then
    let min_bg' := round_dec ((min_bg - 33/10) / aRatio) 1 + 33/10
    let max_bg' := round_dec ((max_bg - 33/10) / aRatio) 1 + 33/10
    let new_target_bg := max (22/5) (round_dec ((target_bg - 33/10) / aRatio) 1 + 33/10)
    (min_bg', max_bg', new_target_bg)
  else (min_bg, max_bg, target_bg)

/-- Intermediates of lines 359-533 (sensitivity & target resolution, ISF,
deviation, naive/initial eventual BG, expected delta, threshold). -/
structure PreCtx where
  sensitivityRatio : ℚ
  exercise_ratio : ℚ
  basal : ℚ
  min_bg1 : ℚ
  max_bg1 : ℚ
  target_bg1 : ℚ
  iob0 : IobTotal
  minDelta : ℚ
  minAvgDelta : ℚ
  maxDelta : ℚ
  sens : ℚ
  iobTHvirtual : ℚ
  enableSMB0 : Bool
  bgi : ℚ
  deviation : ℚ
  naive_eventualBG : ℚ
  eventualBG0 : ℚ
  min_bg : ℚ
  max_bg : ℚ
  target_bg : ℚ
  expectedDelta : ℚ
  threshold : ℚ

def preCtx (inp : Inputs) : PreCtx :=
  let profile := inp.profile
  let bg := inp.glucose_status.glucose
  -- lines 361-363
  let target_bg0 := (profile.min_bg + profile.max_bg) / 2
  let min_bg0 := profile.min_bg
  let max_bg0 := profile.max_bg
  -- lines 365-395
  let high_temptarget_raises_sensitivity :=
    profile.exercise_mode || profile.high_temptarget_raises_sensitivity
  let normalTarget : ℚ := 11/2
  let halfBasalTarget : ℚ := (profile.half_basal_exercise_target : ℚ) / 18
  let c := halfBasalTarget - normalTarget
  let srPair : ℚ × ℚ :=
    if (high_temptarget_raises_sensitivity ∧ profile.temptarget_set ∧
          target_bg0 > normalTarget) ∨
       (profile.low_temptarget_lowers_sensitivity ∧ profile.temptarget_set ∧
          target_bg0 < normalTarget) then
      (if c * (c + target_bg0 - normalTarget) ≤ 0 then (profile.autosens_max, 1)
       else
         let sr := round_dec (min (c / (c + target_bg0 - normalTarget))
           profile.autosens_max) 2
         (sr, sr))
    else (inp.autosens_data.autosensRatio, 1)
  let sensitivityRatio := srPair.1
  let exercise_ratio := srPair.2
  -- lines 397-399
  let iobTH_reduction_ratio : ℚ :=
    if inp.iob_threshold_percent ≠ 100 then
      (inp.profile_percentage : ℚ) / 100 * exercise_ratio
    else 1
  -- line 401
  let basal := profile.current_basal * sensitivityRatio
  -- lines 408-420
  let t1 := adjustTargetsAutosens profile inp.autosens_data.autosensRatio
    min_bg0 max_bg0 target_bg0
  let min_bg1 := t1.1
  let max_bg1 := t1.2.1
  let target_bg1 := t1.2.2
  -- lines 422-435
  let iob0 := inp.iob_data_array.headI
  let minDelta := min inp.glucose_status.delta inp.glucose_status.short_avg_delta
  let minAvgDelta := min inp.glucose_status.short_avg_delta
    inp.glucose_status.long_avg_delta
  let maxDelta := max inp.glucose_status.delta
    (max inp.glucose_status.short_avg_delta inp.glucose_status.long_avg_delta)
  -- lines 437-446
  let adjusted_sens := round_dec (profile.sens / sensitivityRatio) 1
  let sens := if inp.autoIsfMode then profile.variable_sens else adjusted_sens
  -- lines 456-463
  let iobTHtolerance : ℚ := 130
  let iobTHvirtual := (inp.iob_threshold_percent : ℚ) * iobTHtolerance / 10000 *
    profile.max_iob * iobTH_reduction_ratio
  -- lines 465-472
  let enableSMB0 :=
    if inp.microBolusAllowed ∧ inp.loop_wanted_smb ≠ "AAPS" then
      (if inp.loop_wanted_smb = "enforced" ∨ inp.loop_wanted_smb = "fullLoop"
       then true else false)
    else enable_smb profile inp.microBolusAllowed inp.meal_data target_bg1
  -- lines 474-492
  let bgi := round_dec (-(iob0.activity) * sens * 5) 2
  let dev0 := round_dec (30 / 5 * (minDelta - bgi)) 0
  let deviation :=
    if dev0 < 0 then
      let dev1 := round_dec (30 / 5 * (minAvgDelta - bgi)) 0
      (if dev1 < 0 then
        round_dec (30 / 5 * (inp.glucose_status.long_avg_delta - bgi)) 0
      else dev1)
    else dev0
  let naive_eventualBG :=
    if inp.autoIsfMode then round_dec (bg - iob0.iob * sens) 1
    else if iob0.iob > 0 then round_dec (bg - iob0.iob * sens) 1
    else round_dec (bg - iob0.iob * min sens profile.sens) 1
  let eventualBG0 := naive_eventualBG + deviation
  -- lines 494-529
  let t2 :=
    if bg > max_bg1 ∧ profile.adv_target_adjustments ∧ ¬profile.temptarget_set then
      let adjustedMinBG := round_dec (max (22/5) (min_bg1 - (bg - min_bg1) / 3)) 1
      let adjustedTargetBG := round_dec (max (22/5) (target_bg1 - (bg - target_bg1) / 3)) 1
      let adjustedMaxBG := round_dec (max (22/5) (max_bg1 - (bg - max_bg1) / 3)) 1
      let min_bg2 := if eventualBG0 > adjustedMinBG ∧
          naive_eventualBG > adjustedMinBG ∧ min_bg1 > adjustedMinBG then
          adjustedMinBG else min_bg1
      let target_bg2 := if eventualBG0 > adjustedTargetBG ∧
          naive_eventualBG > adjustedTargetBG ∧ target_bg1 > adjustedTargetBG then
          adjustedTargetBG else target_bg1
      let max_bg2 := if eventualBG0 > adjustedMaxBG ∧
          naive_eventualBG > adjustedMaxBG ∧ max_bg1 > adjustedMaxBG then
          adjustedMaxBG else max_bg1
      (min_bg2, max_bg2, target_bg2)
    else (min_bg1, max_bg1, target_bg1)
  -- lines 531-533
  let expectedDelta := calculate_expected_delta t2.2.2 eventualBG0 bgi
  let threshold := t2.1 - 1/2 * (t2.1 - 11/5)
  { sensitivityRatio := sensitivityRatio
    exercise_ratio := exercise_ratio
    basal := basal
    min_bg1 := min_bg1, max_bg1 := max_bg1, target_bg1 := target_bg1
    iob0 := iob0
    minDelta := minDelta, minAvgDelta := minAvgDelta, maxDelta := maxDelta
    sens := sens
    iobTHvirtual := iobTHvirtual
    enableSMB0 := enableSMB0
    bgi := bgi
    deviation := deviation
    naive_eventualBG := naive_eventualBG
    eventualBG0 := eventualBG0
    min_bg := t2.1, max_bg := t2.2.1, target_bg := t2.2.2
    expectedDelta := expectedDelta
    threshold := threshold }

/-- Intermediates of lines 551-606 (carb-impact quantities). -/
structure CarbCtx where
  ci : ℚ
  uci : ℚ
  csf : ℚ
  remainingCATime : ℚ
  remainingCarbs : ℚ
  remainingCIpeak : ℚ
  slopeFromDeviations : ℚ
  cid : ℚ
  acid : ℚ

def carbCtx (inp : Inputs) : CarbCtx :=
  let pre := preCtx inp
  -- lines 559-571
  let ci0 := round_dec (pre.minDelta - pre.bgi) 1
  let uci := round_dec (pre.minDelta - pre.bgi) 1
  let csf := pre.sens / inp.profile.carb_ratio
  let maxCarbAbsorptionRate : ℚ := 30
  let maxCI := round_dec (maxCarbAbsorptionRate * csf * 5 / 60) 1
  let ci := if ci0 > maxCI then maxCI else ci0
  -- lines 573-588
  let remainingCATimeMin0 : ℚ := 3 / pre.sensitivityRatio
  let assumedCarbAbsorptionRate : ℚ := 20
  let remainingCATime :=
    if inp.meal_data.carbs ≠ 0 then
      let remainingCATimeMin := max remainingCATimeMin0
        (inp.meal_data.meal_cob / assumedCarbAbsorptionRate)
      let lastCarbAge := round_dec
        (((inp.currentTime - inp.meal_data.last_carb_time : ℤ) : ℚ) / 60000) 0
      round_dec (remainingCATimeMin + 3/2 * lastCarbAge / 60) 1
    else remainingCATimeMin0
  -- lines 590-595
  let totalCI := max 0 (ci / 5 * 60 * remainingCATime / 2)
  let totalCA := totalCI / csf
  let remainingCarbsCap : ℤ := min 90 inp.profile.remainingCarbsCap
  let remainingCarbs := min (remainingCarbsCap : ℚ)
    (max 0 (inp.meal_data.meal_cob - totalCA))
  let remainingCIpeak := remainingCarbs * csf * 5 / 60 / (remainingCATime / 2)
  -- lines 597-606
  let slopeFromMaxDeviation := round_dec inp.meal_data.slope_from_max_deviation 2
  let slopeFromMinDeviation := round_dec inp.meal_data.slope_from_min_deviation 2
  let slopeFromDeviations := min slopeFromMaxDeviation (-slopeFromMinDeviation / 3)
  let aci : ℚ := 10
  let cid := if ci = 0 then 0
    else min (remainingCATime * 60 / 5 / 2)
      (max 0 (inp.meal_data.meal_cob * csf / ci))
  let acid := max 0 (inp.meal_data.meal_cob * csf / aci)
  { ci := ci, uci := uci, csf := csf, remainingCATime := remainingCATime
    remainingCarbs := remainingCarbs, remainingCIpeak := remainingCIpeak
    slopeFromDeviations := slopeFromDeviations, cid := cid, acid := acid }

/-- State of the prediction loop (lines 612-695).  The five prediction
lists are kept newest-first (the Python lists append at the end), so the
Python `xs[-1]` is `headI` here; `remainingCIs`/`predCIs` are kept
newest-first as well (they are log-only). -/
structure LoopState where
  iobR : List ℚ
  cobR : List ℚ
  acobR : List ℚ
  uamR : List ℚ
  ztR : List ℚ
  minIOBPredBG : ℚ
  minCOBPredBG : ℚ
  minUAMPredBG : ℚ
  minCOBGuardBG : ℚ
  minUAMGuardBG : ℚ
  minIOBGuardBG : ℚ
  minZTGuardBG : ℚ
  UAMduration : ℚ
  remainingCItotal : ℚ
  remainingCIs : List ℤ
  predCIs : List ℤ

/-- Lines 551-555 and 612-626. -/
def initLoopState (bg : ℚ) : LoopState :=
  ⟨[bg], [bg], [bg], [bg], [bg], 999, 999, 999, 999, 999, 999, 999, 0, 0, [], []⟩

/-- One iteration of the prediction loop (lines 628-695). -/
def predStep (inp : Inputs) (st : LoopState) (iobTick : IobTotal) : LoopState :=
  let pre := preCtx inp
  let cc := carbCtx inp
  let sens := pre.sens
  let predBGI := round_dec (-(iobTick.activity) * sens * 5) 2
  let predZTBGI :=
    (iobTick.iob_with_zero_temp.map
      (fun z => round_dec (-(z.activity) * sens * 5) 2)).getD predBGI
  let predDev := cc.ci * (1 - min 1 ((st.iobR.length : ℚ) / (60 / 5)))
  let IOBpredBG := st.iobR.headI + predBGI + predDev
  let ZTpredBG := st.ztR.headI + predZTBGI
  let predCI := max 0 (max 0 cc.ci * (1 - (st.cobR.length : ℚ) / max (cc.cid * 2) 1))
  let predACI := max 0 (max 0 (10 : ℚ) * (1 - (st.cobR.length : ℚ) / max (cc.acid * 2) 1))
  let intervals := min (st.cobR.length : ℚ)
    (cc.remainingCATime * 12 - st.cobR.length)
  let remainingCI := max 0 (intervals / (cc.remainingCATime / 2 * 12) * cc.remainingCIpeak)
  let COBpredBG := st.cobR.headI + predBGI + min 0 predDev + predCI + remainingCI
  let aCOBpredBG := st.acobR.headI + predBGI + min 0 predDev + predACI
  let predUCIslope := max 0 (cc.uci + (st.uamR.length : ℚ) * cc.slopeFromDeviations)
  let predUCImax := max 0 (cc.uci * (1 - (st.uamR.length : ℚ) / max (3 * 60 / 5) 1))
  let predUCI := min predUCIslope predUCImax
  let UAMduration' := if predUCI > 0 then
      round_dec (((st.uamR.length : ℚ) + 1) * 5 / 60) 1
    else st.UAMduration
  let UAMpredBG := st.uamR.headI + predBGI + min 0 predDev + predUCI
  let iobR' := if st.iobR.length < 48 then IOBpredBG :: st.iobR else st.iobR
  let cobR' := if st.cobR.length < 48 then COBpredBG :: st.cobR else st.cobR
  let acobR' := if st.acobR.length < 48 then aCOBpredBG :: st.acobR else st.acobR
  let uamR' := if st.uamR.length < 48 then UAMpredBG :: st.uamR else st.uamR
  let ztR' := if st.ztR.length < 48 then ZTpredBG :: st.ztR else st.ztR
  let minCOBGuardBG' := if COBpredBG < st.minCOBGuardBG then
      round_dec COBpredBG 0 else st.minCOBGuardBG
  let minUAMGuardBG' := if UAMpredBG < st.minUAMGuardBG then
      round_dec UAMpredBG 0 else st.minUAMGuardBG
  let minIOBGuardBG' := if IOBpredBG < st.minIOBGuardBG then
      IOBpredBG else st.minIOBGuardBG
  let minZTGuardBG' := if ZTpredBG < st.minZTGuardBG then
      round_dec ZTpredBG 0 else st.minZTGuardBG
  let insulinPeak5m : ℚ := 90 / 60 * 12
  let minIOBPredBG' := if (iobR'.length : ℚ) > insulinPeak5m ∧
      IOBpredBG < st.minIOBPredBG then round_dec IOBpredBG 0 else st.minIOBPredBG
  let minCOBPredBG' := if (cc.cid ≠ 0 ∨ cc.remainingCIpeak > 0) ∧
      (cobR'.length : ℚ) > insulinPeak5m ∧ COBpredBG < st.minCOBPredBG then
      round_dec COBpredBG 0 else st.minCOBPredBG
  let minUAMPredBG' := if inp.profile.enable_uam then
      (if uamR'.length > 12 ∧ UAMpredBG < st.minUAMPredBG then
        round_dec UAMpredBG 0
      else st.minUAMPredBG)
    else st.minUAMPredBG
  { iobR := iobR', cobR := cobR', acobR := acobR', uamR := uamR', ztR := ztR'
    minIOBPredBG := minIOBPredBG', minCOBPredBG := minCOBPredBG'
    minUAMPredBG := minUAMPredBG'
    minCOBGuardBG := minCOBGuardBG', minUAMGuardBG := minUAMGuardBG'
    minIOBGuardBG := minIOBGuardBG', minZTGuardBG := minZTGuardBG'
    UAMduration := UAMduration'
    remainingCItotal := st.remainingCItotal + predCI + remainingCI
    remainingCIs := pyRound (predCI + remainingCI) :: st.remainingCIs
    predCIs := pyRound predCI :: st.predCIs }

def runLoop (inp : Inputs) : LoopState :=
  inp.iob_data_array.foldl (predStep inp) (initLoopState inp.glucose_status.glucose)

/-- Clamp to `[2.2, 22.3]` mmol/L then round to one decimal — the per-value
treatment applied to every prediction list before export (lines 705, 717,
729, 737, 749). -/
def clampBG (x : ℚ) : ℚ := round_dec (min (223/10) (max (11/5) x)) 1

/-- Display export: mmol/L to rounded mg/dL (`int(round(x * 18))`). -/
def toMgdl (x : ℚ) : ℤ := pyRound (x * 18)

/-- The trailing-duplicate trimming loops of lines 706-710, 730-734,
738-742, 750-754, acting on newest-first lists: drop the newest value
while it equals its predecessor and the list is still longer than 13. -/
def trimDup : List ℚ → List ℚ
  | a :: b :: rest =>
    if a = b ∧ rest.length + 2 > 13 then trimDup (b :: rest) else a :: b :: rest
  | l => l

/-- The ZT trimming loop of lines 718-722 on the newest-first list: drop
the newest value while it exceeds both its predecessor and the target and
the list is still longer than 7. -/
def trimZT (target : ℚ) : List ℚ → List ℚ
  | a :: b :: rest =>
    if (b < a ∧ target < a) ∧ rest.length + 2 ≥ 8 then trimZT target (b :: rest)
    else a :: b :: rest
  | l => l

/-- Python's `x or y` fallback on an optional float: `y` when `x` is
`None` or `0.0` (lines 776-786). -/
def pyOr (a : Option ℚ) (b : ℚ) : ℚ :=
  match a with
  | some v => if v = 0 then b else v
  | none => b

/-- The clamped, trimmed prediction curves (newest-first). -/
def iobTrimmedR (inp : Inputs) : List ℚ := trimDup ((runLoop inp).iobR.map clampBG)

def ztTrimmedR (inp : Inputs) : List ℚ :=
  trimZT (preCtx inp).target_bg ((runLoop inp).ztR.map clampBG)

def cobTrimmedR (inp : Inputs) : List ℚ := trimDup ((runLoop inp).cobR.map clampBG)

def uamTrimmedR (inp : Inputs) : List ℚ := trimDup ((runLoop inp).uamR.map clampBG)

/-- Condition of lines 736 and 878: the COB curve is exported (and used)
iff carbs are on board and the carb impact is positive. -/
def cobActive (inp : Inputs) : Prop :=
  inp.meal_data.meal_cob > 0 ∧
    ((carbCtx inp).ci > 0 ∨ (carbCtx inp).remainingCIpeak > 0)

instance (inp : Inputs) : Decidable (cobActive inp) := by
  unfold cobActive; infer_instance

/-- Condition of line 747. -/
def ciActive (inp : Inputs) : Prop :=
  (carbCtx inp).ci > 0 ∨ (carbCtx inp).remainingCIpeak > 0

instance (inp : Inputs) : Decidable (ciActive inp) := by
  unfold ciActive; infer_instance

/-- Intermediates of lines 697-932 (prediction export, eventual-BG raises,
guard blending, carbs-required estimate, SMB gating). -/
structure MidCtx where
  predictions : Predictions
  lastIOBpredBG : ℚ
  lastCOBpredBG : Option ℚ
  lastUAMpredBG : Option ℚ
  eventualBG : ℚ
  eventualBGField : Option ℚ
  minIOBPredBG : ℚ
  minCOBPredBG : ℚ
  minUAMPredBG : ℚ
  minPredBG : ℚ
  minGuardBG : ℚ
  avgPredBG : ℚ
  minZTUAMPredBG : ℚ
  carbsReqBG : ℚ
  bgUndershoot : ℚ
  minutesAboveMinBG : ℤ
  minutesAboveThreshold : ℤ
  enableSMB : Bool
  carbsReq : ℤ

def midCtx (inp : Inputs) : MidCtx :=
  let pre := preCtx inp
  let cc := carbCtx inp
  let ls := runLoop inp
  -- lines 705-715
  let iobT := iobTrimmedR inp
  let lastIOBpredBG := iobT.headI
  -- lines 717-723
  let ztT := ztTrimmedR inp
  -- lines 728-734: aCOBpredBGs are clamped and trimmed when meal_cob > 0
  -- but are never stored into rT.predBGs, so they are dead here.
  -- lines 736-745
  let cobT := cobTrimmedR inp
  let lastCOBpredBG : Option ℚ :=
    if cobActive inp then some cobT.headI else none
  let ev1 := if cobActive inp then
      max pre.eventualBG0 (round_dec cobT.headI 1)
    else pre.eventualBG0
  -- lines 747-758
  let uamT := uamTrimmedR inp
  let lastUAMpredBG : Option ℚ :=
    if ciActive inp ∧ inp.profile.enable_uam then some uamT.headI else none
  let ev2 := if ciActive inp ∧ inp.profile.enable_uam then
      max ev1 (round_dec uamT.headI 1)
    else ev1
  let eventualBGField : Option ℚ :=
    if ciActive inp then some ev2 else some pre.eventualBG0
  let preds : Predictions :=
    { IOB := some ((iobT.reverse).map toMgdl)
      COB := if cobActive inp then some ((cobT.reverse).map toMgdl) else none
      aCOB := none
      UAM := if ciActive inp ∧ inp.profile.enable_uam then
          some ((uamT.reverse).map toMgdl)
        else none
      ZT := some ((ztT.reverse).map toMgdl) }
  -- lines 765-768
  let minIOBPredBG1 := max (11/5) ls.minIOBPredBG
  let minCOBPredBG1 := max (11/5) ls.minCOBPredBG
  let minUAMPredBG1 := max (11/5) ls.minUAMPredBG
  let minPredBG0 := round_dec minIOBPredBG1 1
  -- lines 770-772
  let fractionCarbsLeft := if inp.meal_data.carbs ≠ 0 then
      inp.meal_data.meal_cob / inp.meal_data.carbs else 0
  -- lines 774-792
  let avg0 :=
    if minUAMPredBG1 < 999 ∧ minCOBPredBG1 < 999 then
      round_dec ((1 - fractionCarbsLeft) * pyOr lastUAMpredBG minUAMPredBG1 +
        fractionCarbsLeft * pyOr lastCOBpredBG minCOBPredBG1) 1
    else if minCOBPredBG1 < 999 then
      round_dec ((lastIOBpredBG + pyOr lastCOBpredBG minCOBPredBG1) / 2) 1
    else if minUAMPredBG1 < 999 then
      round_dec ((lastIOBpredBG + pyOr lastUAMpredBG minUAMPredBG1) / 2) 1
    else round_dec lastIOBpredBG 1
  let avgPredBG := if ls.minZTGuardBG > avg0 then ls.minZTGuardBG else avg0
  -- lines 794-806
  let minGuardBG0 :=
    if cc.cid > 0 ∨ cc.remainingCIpeak > 0 then
      (if inp.profile.enable_uam then
        fractionCarbsLeft * ls.minCOBGuardBG +
          (1 - fractionCarbsLeft) * ls.minUAMGuardBG
      else ls.minCOBGuardBG)
    else if inp.profile.enable_uam then ls.minUAMGuardBG
    else ls.minIOBGuardBG
  let minGuardBG := round_dec minGuardBG0 1
  -- lines 808-817
  let minZTUAM0 :=
    if ls.minZTGuardBG < pre.threshold then (minUAMPredBG1 + ls.minZTGuardBG) / 2
    else if ls.minZTGuardBG < pre.target_bg then
      let blendPct := (ls.minZTGuardBG - pre.threshold) /
        (pre.target_bg - pre.threshold)
      let blendedMinZTGuardBG := minUAMPredBG1 * blendPct +
        ls.minZTGuardBG * (1 - blendPct)
      (minUAMPredBG1 + blendedMinZTGuardBG) / 2
    else if ls.minZTGuardBG > minUAMPredBG1 then
      (minUAMPredBG1 + ls.minZTGuardBG) / 2
    else minUAMPredBG1
  let minZTUAMPredBG := round_dec minZTUAM0 1
  -- lines 819-837
  let minPredBG1 :=
    if inp.meal_data.carbs ≠ 0 then
      (if ¬inp.profile.enable_uam ∧ minCOBPredBG1 < 999 then
        round_dec (max minIOBPredBG1 minCOBPredBG1) 1
      else if minCOBPredBG1 < 999 then
        let blendedMinPredBG := fractionCarbsLeft * minCOBPredBG1 +
          (1 - fractionCarbsLeft) * minZTUAMPredBG
        round_dec (max minIOBPredBG1 (max minCOBPredBG1 blendedMinPredBG)) 1
      else if inp.profile.enable_uam then minZTUAMPredBG
      else minGuardBG)
    else if inp.profile.enable_uam then
      round_dec (max minIOBPredBG1 minZTUAMPredBG) 1
    else minPredBG0
  let minPredBG2 := min minPredBG1 avgPredBG
  -- lines 850-855: maxCOBPredBG is never assigned before this point, so
  -- maxCOBGuardBG is bg; the walrus-if body can never change minPredBG
  -- because bg > bg is false.
  let maxCOBGuardBG := inp.glucose_status.glucose
  let minPredBG3 := if maxCOBGuardBG ≠ 0 ∧
      maxCOBGuardBG > inp.glucose_status.glucose then
      min minPredBG2 maxCOBGuardBG else minPredBG2
  -- lines 871-874
  let carbsReqBG0 := pre.naive_eventualBG
  let carbsReqBG := if carbsReqBG0 < 11/5 then min minGuardBG carbsReqBG0
    else carbsReqBG0
  let bgUndershoot := pre.threshold - carbsReqBG
  -- lines 876-895
  let scanList := if cobActive inp then cobT.reverse else iobT.reverse
  let minutesAboveMinBG : ℤ :=
    match scanList.findIdx? (fun v => decide (v < pre.min_bg)) with
    | some i => 5 * (i : ℤ)
    | none => 240
  let minutesAboveThreshold : ℤ :=
    match scanList.findIdx? (fun v => decide (v < pre.threshold)) with
    | some i => 5 * (i : ℤ)
    | none => 240
  -- lines 897-911
  let enable1 := if pre.enableSMB0 ∧ minGuardBG < pre.threshold then false
    else pre.enableSMB0
  let maxDeltaPercentage : ℚ := if inp.loop_wanted_smb = "fullLoop" then 3/10
    else 2/10
  let enable2 := if pre.maxDelta > maxDeltaPercentage * inp.glucose_status.glucose
    then false else enable1
  -- lines 921-924
  let zeroTempDuration := minutesAboveThreshold
  let zeroTempEffectDouble := inp.profile.current_basal * pre.sens *
    (zeroTempDuration : ℚ) / 60
  let COBforCarbsReq := max 0 (inp.meal_data.meal_cob - 1/4 * inp.meal_data.carbs)
  let carbsReq := pyRound ((bgUndershoot - zeroTempEffectDouble) / cc.csf -
    COBforCarbsReq)
  { predictions := preds
    lastIOBpredBG := lastIOBpredBG
    lastCOBpredBG := lastCOBpredBG
    lastUAMpredBG := lastUAMpredBG
    eventualBG := ev2
    eventualBGField := eventualBGField
    minIOBPredBG := minIOBPredBG1
    minCOBPredBG := minCOBPredBG1
    minUAMPredBG := minUAMPredBG1
    minPredBG := minPredBG3
    minGuardBG := minGuardBG
    avgPredBG := avgPredBG
    minZTUAMPredBG := minZTUAMPredBG
    carbsReqBG := carbsReqBG
    bgUndershoot := bgUndershoot
    minutesAboveMinBG := minutesAboveMinBG
    minutesAboveThreshold := minutesAboveThreshold
    enableSMB := enable2
    carbsReq := carbsReq }

/-- The result record as populated at lines 535-549, 703, 857-858 and
929-932, i.e. just before the decision tree of the engine runs. -/
def buildRT (inp : Inputs) : RT :=
  let pre := preCtx inp
  let mid := midCtx inp
  let base : RT :=
    { timestamp := inp.currentTime
      bg := some inp.glucose_status.glucose
      eventualBG := mid.eventualBGField
      targetBG := some pre.target_bg
      insulinReq := some 0
      deliverAt := some inp.currentTime
      sensitivityRatio := some pre.sensitivityRatio
      predBGs := some mid.predictions
      COB := some inp.meal_data.meal_cob
      IOB := some pre.iob0.iob
      variable_sens := some inp.profile.variable_sens }
  if mid.carbsReq ≥ inp.profile.remainingCarbsCap ∧
      mid.minutesAboveThreshold ≤ 45 then
    { base with carbsReq := some mid.carbsReq
                carbsReqWithin := some mid.minutesAboveThreshold }
  else base

/-- The advisory exception of lines 934-943: negative IOB with rising
delta while below threshold (reason-only, does not return). -/
def advisoryCondition (inp : Inputs) : Prop :=
  inp.glucose_status.glucose < (preCtx inp).threshold ∧
  (preCtx inp).iob0.iob < -(inp.profile.current_basal) * 20 / 60 ∧
  (preCtx inp).minDelta > 0 ∧ (preCtx inp).minDelta > (preCtx inp).expectedDelta

instance (inp : Inputs) : Decidable (advisoryCondition inp) := by
  unfold advisoryCondition; infer_instance

/-- The deep-low zero-temp branch fires (line 944) when BG or minGuardBG
is below threshold and the advisory exception did not match. -/
def deepLowFires (inp : Inputs) : Prop :=
  ¬advisoryCondition inp ∧
  (inp.glucose_status.glucose < (preCtx inp).threshold ∨
   (midCtx inp).minGuardBG < (preCtx inp).threshold)

instance (inp : Inputs) : Decidable (deepLowFires inp) := by
  unfold deepLowFires; infer_instance

/-- The duration computed for the deep-low zero temp (lines 946-950). -/
def deepLowDuration (inp : Inputs) : ℤ :=
  let bgUndershoot := (preCtx inp).target_bg - (midCtx inp).minGuardBG
  let worstCaseInsulinReq := bgUndershoot / (preCtx inp).sens
  let durationReq := pyRound (60 * worstCaseInsulinReq / inp.profile.current_basal)
  min 120 (max 30 (pyRound ((durationReq : ℚ) / 30) * 30))

/-- The decision tree of lines 934-1141 (everything after the sensor-fault
guard). -/
def dosingRT (inp : Inputs) : RT :=
  let pre := preCtx inp
  let mid := midCtx inp
  let profile := inp.profile
  let bg := inp.glucose_status.glucose
  let rT := buildRT inp
  let basal := pre.basal
  let sens := pre.sens
  let target_bg := pre.target_bg
  let threshold := pre.threshold
  let minDelta := pre.minDelta
  let expectedDelta := pre.expectedDelta
  let eventualBG := mid.eventualBG
  let naive_eventualBG := pre.naive_eventualBG
  -- lines 934-951
  if deepLowFires inp then
    set_temp_basal 0 (deepLowDuration inp) profile rT inp.currenttemp
  else
    -- lines 953-963
    let minutes := (inp.currentTime.fdiv 60000) % 60
    if profile.skip_neutral_temps ∧ minutes ≥ 55 then
      set_temp_basal 0 0 profile rT inp.currenttemp
    -- lines 965-1018
    else if eventualBG < pre.min_bg then
      (if minDelta > expectedDelta ∧ minDelta > 0 ∧ mid.carbsReq = 0 then
        (if naive_eventualBG < 11/5 then
          set_temp_basal 0 30 profile rT inp.currenttemp
        else if inp.currenttemp.duration > 15 ∧
            |basal - inp.currenttemp.rate| < 1/1000000000 then rT
        else set_temp_basal basal 30 profile rT inp.currenttemp)
      else
        let insulinReq0 := round_dec (2 * min 0 ((eventualBG - target_bg) / sens)) 2
        let naiveInsulinReq := round_dec (min 0 ((naive_eventualBG - target_bg) / sens)) 2
        let insulinReq := if minDelta < 0 ∧ minDelta > expectedDelta then
            round_dec (insulinReq0 * (minDelta / expectedDelta)) 2
          else insulinReq0
        let rate := basal + 2 * insulinReq
        let insulinScheduled := (inp.currenttemp.duration : ℚ) *
          (inp.currenttemp.rate - basal) / 60
        let minInsulinReq := min insulinReq naiveInsulinReq
        if insulinScheduled < minInsulinReq - basal * (3/10) then
          set_temp_basal rate 30 profile rT inp.currenttemp
        else if inp.currenttemp.duration > 5 ∧
            rate ≥ inp.currenttemp.rate * (8/10) then rT
        else if rate ≤ 0 then
          let bgUndershoot := target_bg - naive_eventualBG
          let worstCaseInsulinReq := bgUndershoot / sens
          let durationReq0 := pyRound (60 * worstCaseInsulinReq / profile.current_basal)
          let durationReq := if durationReq0 < 0 then 0
            else min 120 (max 0 (pyRound ((durationReq0 : ℚ) / 30) * 30))
          (if durationReq > 0 then
            set_temp_basal rate durationReq profile rT inp.currenttemp
          else set_temp_basal rate 30 profile rT inp.currenttemp)
        else set_temp_basal rate 30 profile rT inp.currenttemp)
    -- lines 1020-1039
    else if minDelta < expectedDelta ∧ ¬(inp.microBolusAllowed ∧ mid.enableSMB) then
      (if inp.currenttemp.duration > 15 ∧
          |basal - inp.currenttemp.rate| < 1/1000000000 then rT
      else set_temp_basal basal 30 profile rT inp.currenttemp)
    -- lines 1041-1051
    else if min eventualBG mid.minPredBG < pre.max_bg ∧
        ¬(inp.microBolusAllowed ∧ mid.enableSMB) then
      (if inp.currenttemp.duration > 15 ∧
          |basal - inp.currenttemp.rate| < 1/1000000000 then rT
      else set_temp_basal basal 30 profile rT inp.currenttemp)
    -- lines 1055-1062
    else if pre.iob0.iob > profile.max_iob then
      (if inp.currenttemp.duration > 15 ∧
          |basal - inp.currenttemp.rate| < 1/1000000000 then rT
      else set_temp_basal basal 30 profile rT inp.currenttemp)
    else
      -- lines 1064-1072
      let insulinReq0 := round_dec ((min mid.minPredBG eventualBG - target_bg) / sens) 2
      let insulinReq1 := if insulinReq0 > profile.max_iob - pre.iob0.iob then
          profile.max_iob - pre.iob0.iob
        else insulinReq0
      let rate := basal + 2 * insulinReq1
      let insulinReq := round_dec insulinReq1 3
      let rT2 := { rT with insulinReq := some insulinReq }
      -- lines 1074-1132: the SMB path sets the covering temp directly on
      -- the result; the computed microBolus only reaches the reason string.
      if inp.microBolusAllowed ∧ mid.enableSMB ∧ bg > threshold then
        let worstCaseInsulinReq :=
          (target_bg - (naive_eventualBG + mid.minIOBPredBG) / 2) / sens
        let durationReq0 := pyRound (60 * worstCaseInsulinReq / profile.current_basal)
        let durationReq := min 120 (max 0 (pyRound ((durationReq0 : ℚ) / 30) * 30))
        { rT2 with rate := some basal, duration := some durationReq }
      else if inp.currenttemp.duration > 15 ∧
          |basal - inp.currenttemp.rate| < 1/1000000000 then rT2
      else set_temp_basal basal 30 profile rT2 inp.currenttemp

/-- Source `determine_basal_autoisf` (lines 288-1141), composed from the staged
definitions above.  An empty `iob_data_array` (on which Python would raise
`IndexError`) is modelled by a zero-IOB head entry. -/
def determine_basal_autoisf (inp : Inputs) : RT :=
  if guardCondition inp then guardRT inp else dosingRT inp

/-- Source `iob_curve` from `core/iob.py` lines 16-26. -/
def iob_curve (t dia : ℚ) : ℚ :=
  if t < 0 ∨ t > dia * 60 then 0
  else
    max (2 * (t / (dia * 60)) ^ 3 - 3 * (t / (dia * 60)) ^ 2 + 1) 0

/-- Source `insulin_activity` from `core/iob.py` lines 29-37. -/
def insulin_activity (t dia : ℚ) : ℚ :=
  if t < 0 ∨ t > dia * 60 then 0
  else
    max ((6 * (t / (dia * 60)) ^ 2 - 6 * (t / (dia * 60))) / (dia * 60)) 0

/-- Python float division, which raises `ZeroDivisionError` on a zero
divisor (returned here as `Except.error`). -/
def checkedDiv (a b : ℚ) : Except Unit ℚ :=
  if b = 0 then .error () else .ok (a / b)

/-- Fallible model of lines 562 and 590-591: `csf = sens / carb_ratio`
followed by `totalCA = totalCI / csf`.  Either a zero carb ratio or a zero
ISF makes the Python code raise. -/
def carbScaleFactors (sens carbRat ci remainingCATime : ℚ) :
    Except Unit (ℚ × ℚ) := do
  let csf ← checkedDiv sens carbRat
  let totalCI := max 0 (ci / 5 * 60 * remainingCATime / 2)
  let totalCA ← checkedDiv totalCI csf
  return (csf, totalCA)

/-- Round half away from zero — the behaviour the spec ascribes to
`roundDecimal` (written from the spec's words for comparison with
`round_dec`). -/
def roundHalfAwayFromZero (q : ℚ) : ℤ :=
  if 0 ≤ q then ⌊q + 1/2⌋ else -⌊-q + 1/2⌋

/-- Round half away from zero at a decimal precision (spec's reference
rounding). -/
def roundHalfAwayFromZeroDec (value : ℚ) (digits : ℕ) : ℚ :=
  (roundHalfAwayFromZero (value * 10 ^ digits) : ℚ) / 10 ^ digits

/-! ### Concrete inputs used by witnesses and counterexamples -/

def baseProfile : OapsProfileAutoIsf :=
  { min_bg := 4, max_bg := 6, target_bg := 5, sens := 6, carb_ratio := 10
    current_basal := 1, max_basal := 3, max_daily_basal := 2, max_iob := 5
    autosens_max := 12/10
    sensitivity_raises_target := false, resistance_lowers_target := false
    adv_target_adjustments := false, enable_uam := false, exercise_mode := false
    high_temptarget_raises_sensitivity := false
    low_temptarget_lowers_sensitivity := false
    half_basal_exercise_target := 160, temptarget_set := false
    remainingCarbsCap := 90, maxSMBBasalMinutes := 30, maxUAMSMBBasalMinutes := 30
    bolus_increment := 1/10, skip_neutral_temps := false
    enableSMB_always := false, enableSMB_with_COB := false
    enableSMB_after_carbs := false, enableSMB_with_temptarget := false
    allowSMB_with_high_temptarget := false
    SMBInterval := 3, smb_delivery_ratio := 1/2, smb_delivery_ratio_min := 1/2
    smb_delivery_ratio_max := 9/10, smb_delivery_ratio_bg_range := 0
    smb_max_range_extension := 1, variable_sens := 6 }

def baseGlucose : GlucoseStatus :=
  { glucose := 3, delta := 0, short_avg_delta := 0, long_avg_delta := 0
    date := 0, noise := 0 }

def baseMeal : MealData :=
  { carbs := 0, meal_cob := 0, last_carb_time := 0
    slope_from_max_deviation := 0, slope_from_min_deviation := 0 }

def baseInputs : Inputs :=
  { glucose_status := baseGlucose
    currenttemp := { duration := 0, rate := 0, minutes_running := 0 }
    iob_data_array := [{ iob := 0, activity := 0 }]
    profile := baseProfile
    autosens_data := { autosensRatio := 1 }
    meal_data := baseMeal
    microBolusAllowed := false
    currentTime := 0
    flatBGsDetected := false
    autoIsfMode := false
    loop_wanted_smb := "AAPS"
    profile_percentage := 100
    smb_ratio := 1/2
    smb_max_range_extension := 1
    iob_threshold_percent := 100 }

/-! ### Rounding lemmas -/

theorem le_pyRound (q : ℚ) : ⌊q⌋ ≤ pyRound q := by
  unfold pyRound
  dsimp only
  split_ifs <;> omega

theorem pyRound_le_floor_add_one (q : ℚ) : pyRound q ≤ ⌊q⌋ + 1 := by
  unfold pyRound
  dsimp only
  split_ifs <;> omega

theorem pyRound_mono {q r : ℚ} (h : q ≤ r) : pyRound q ≤ pyRound r := by
  rcases lt_or_eq_of_le (Int.floor_le_floor h) with hlt | heq
  · calc pyRound q ≤ ⌊q⌋ + 1 := pyRound_le_floor_add_one q
      _ ≤ ⌊r⌋ := by omega
      _ ≤ pyRound r := le_pyRound r
  · have hfr : q - ⌊q⌋ ≤ r - ⌊r⌋ := by
      rw [heq]; push_cast; linarith
    unfold pyRound
    dsimp only
    rw [← heq]
    split_ifs <;> first
      | omega
      | (exfalso; linarith)

theorem pyRound_intCast (n : ℤ) : pyRound (n : ℚ) = n := by
  unfold pyRound
  norm_num

theorem round_dec_mono {x y : ℚ} (d : ℕ) (h : x ≤ y) :
    round_dec x d ≤ round_dec y d := by
  unfold round_dec
  have h10 : (0 : ℚ) < 10 ^ d := by positivity
  refine (div_le_div_iff_of_pos_right h10).mpr ?_
  exact_mod_cast pyRound_mono (mul_le_mul_of_nonneg_right h h10.le)

theorem round_dec_le_of_le {x b : ℚ} (d : ℕ) (h : x ≤ b)
    (hb : round_dec b d = b) : round_dec x d ≤ b := by
  calc round_dec x d ≤ round_dec b d := round_dec_mono d h
    _ = b := hb

theorem le_round_dec_of_le {x a : ℚ} (d : ℕ) (h : a ≤ x)
    (ha : round_dec a d = a) : a ≤ round_dec x d := by
  calc a = round_dec a d := ha.symm
    _ ≤ round_dec x d := round_dec_mono d h

/-! ### C10: the insulin activity curve is identically zero -/

/-- C10: `insulin_activity(t, dia)` returns 0 for every `t` and every
`dia > 0`: the implemented derivative `(6x² - 6x)/(dia·60)` is
non-positive on the whole support `[0, dia·60]` and the result is clamped
with `max(d, 0.0)`, so the activity curve used for IOB activity is
identically zero. -/
theorem insulin_activity_eq_zero (t dia : ℚ) (hdia : 0 < dia) :
    insulin_activity t dia = 0 := by
  unfold insulin_activity
  split_ifs with h
  · rfl
  · push_neg at h
    obtain ⟨h0, h1⟩ := h
    have hpos : (0 : ℚ) < dia * 60 := by positivity
    have hx0 : 0 ≤ t / (dia * 60) := div_nonneg h0 hpos.le
    have hx1 : t / (dia * 60) ≤ 1 := (div_le_one hpos).mpr h1
    have hnum : 6 * (t / (dia * 60)) ^ 2 - 6 * (t / (dia * 60)) ≤ 0 := by nlinarith
    have hdiv : (6 * (t / (dia * 60)) ^ 2 - 6 * (t / (dia * 60))) / (dia * 60) ≤ 0 :=
      div_nonpos_of_nonpos_of_nonneg hnum hpos.le
    exact max_eq_right hdiv

/-- Witness for `insulin_activity_eq_zero` at `t = 30`, `dia = 3`. -/
theorem insulin_activity_eq_zero_witness :
    (0 : ℚ) < 3 ∧ insulin_activity 30 3 = 0 :=
  ⟨by norm_num, insulin_activity_eq_zero 30 3 (by norm_num)⟩

/-! ### C9: `round_dec` is banker's rounding, not half-away-from-zero -/

/-- Away from exact ties, the half-to-even rounding implemented by
Python's `round` agrees with rounding half away from zero. -/
theorem pyRound_eq_rhafz {q : ℚ} (h : Int.fract q ≠ 1/2) :
    pyRound q = roundHalfAwayFromZero q := by
  have hq : q = ⌊q⌋ + Int.fract q := (Int.floor_add_fract q).symm
  have hr0 : 0 ≤ Int.fract q := Int.fract_nonneg q
  have hr1 : Int.fract q < 1 := Int.fract_lt_one q
  have hsub : q - ⌊q⌋ = Int.fract q := Int.self_sub_floor q
  rcases lt_or_gt_of_ne h with hlt | hgt
  · have h1 : ⌊q + 1/2⌋ = ⌊q⌋ := by
      rw [Int.floor_eq_iff] <;> constructor
      · linarith
      · push_cast; linarith
    have h2 : ⌊-q + 1/2⌋ = -⌊q⌋ := by
      rw [Int.floor_eq_iff]
      constructor
      · push_cast; linarith
      · push_cast; linarith
    unfold pyRound roundHalfAwayFromZero
    dsimp only
    rw [hsub]
    split_ifs <;> omega
  · have h1 : ⌊q + 1/2⌋ = ⌊q⌋ + 1 := by
      rw [Int.floor_eq_iff]
      constructor
      · push_cast; linarith
      · push_cast; linarith
    have h2 : ⌊-q + 1/2⌋ = -(⌊q⌋ + 1) := by
      rw [Int.floor_eq_iff]
      constructor
      · push_cast; linarith
      · push_cast; linarith
    unfold pyRound roundHalfAwayFromZero
    dsimp only
    rw [hsub]
    split_ifs <;> first | omega | (exfalso; linarith)

/-- C9 counterexample: at `x = 0.5`, `digits = 0`, `round_dec` returns 0
(banker's rounding to the even neighbour) while round-half-away-from-zero
returns 1; they differ by 1, far beyond the 1e-9 tolerance. -/
theorem round_dec_not_half_away_counterexample :
    round_dec (1/2) 0 = 0 ∧ roundHalfAwayFromZeroDec (1/2) 0 = 1 ∧
    ¬(|round_dec (1/2) 0 - roundHalfAwayFromZeroDec (1/2) 0| ≤ 1/1000000000) := by
  refine ⟨?_, ?_, ?_⟩ <;>
    norm_num [round_dec, pyRound, roundHalfAwayFromZeroDec, roundHalfAwayFromZero]

/-- C9 (amended): `round_dec(x, digits)` implements round-half-to-even
(Python's `round`); away from exact decimal ties it coincides with
round-half-away-from-zero exactly (hence to within any tolerance), but at
ties it rounds to the even neighbour instead. -/
theorem round_dec_eq_half_away_off_ties (x : ℚ) (d : ℕ)
    (h : Int.fract (x * 10 ^ d) ≠ 1/2) :
    round_dec x d = roundHalfAwayFromZeroDec x d := by
  unfold round_dec roundHalfAwayFromZeroDec
  rw [pyRound_eq_rhafz h]

/-- Witness for `round_dec_eq_half_away_off_ties` at `x = 1/4`, `d = 0`. -/
theorem round_dec_eq_half_away_off_ties_witness :
    Int.fract ((1/4 : ℚ) * 10 ^ (0 : ℕ)) ≠ 1/2 ∧
    round_dec (1/4) 0 = roundHalfAwayFromZeroDec (1/4) 0 :=
  ⟨by norm_num [Int.fract], round_dec_eq_half_away_off_ties (1/4) 0
    (by norm_num [Int.fract])⟩

/-! ### C1: the rate clamp and its bypasses -/

/-- Sensor-fault-guard input whose profile has `current_basal` above
`max_basal`: the guard emits the neutral rate without clamping. -/
def inpC1 : Inputs :=
  { baseInputs with
    glucose_status := { baseGlucose with glucose := 1/2 }
    currenttemp := { duration := 30, rate := 6, minutes_running := 0 }
    profile := { baseProfile with current_basal := 5, max_basal := 2
                                  max_daily_basal := 5, autosens_max := 1 } }

/-- C1 counterexample: on a sensor-fault input the algorithm emits
`rate = current_basal = 5 U/h` directly (line 347), bypassing
`set_temp_basal`, even though the claimed ceiling
`min(maxBasal, maxDailyBasal·autosensMax, currentBasal·autosensMax·2)` is
2 U/h — so the clamp invariant fails and `set_temp_basal` is not applied
on every exit path that emits a rate. -/
theorem clamp_invariant_counterexample :
    (determine_basal_autoisf inpC1).rate = some 5 ∧
    get_max_safe_basal inpC1.profile = 2 ∧ ¬((5 : ℚ) ≤ 2) := by
  refine ⟨?_, ?_, by norm_num⟩ <;>
    norm_num [determine_basal_autoisf, guardCondition, minAgo, guardRT,
      get_max_safe_basal, round_dec, pyRound, inpC1, baseInputs, baseGlucose,
      baseProfile]

/-- C1 (amended): `set_temp_basal` does clamp every rate it emits into
`[0, min(maxBasal, maxDailyBasal·autosensMax, currentBasal·autosensMax·2)]`
(provided that ceiling is nonnegative): every call either leaves the
result's rate unchanged or stores a rate in that interval.  However, it is
not the single enforcement point: the sensor-fault guard (lines 343-354)
and the SMB covering-temp path (line 1127) write rates into the result
directly, and those paths can exceed the ceiling
(`clamp_invariant_counterexample`). -/
theorem set_temp_basal_rate_clamped (rate : ℚ) (duration : ℤ)
    (profile : OapsProfileAutoIsf) (rT : RT) (currenttemp : CurrentTemp)
    (hsafe : 0 ≤ get_max_safe_basal profile) :
    (set_temp_basal rate duration profile rT currenttemp).rate = rT.rate ∨
    (∃ r, (set_temp_basal rate duration profile rT currenttemp).rate = some r ∧
      0 ≤ r ∧ r ≤ get_max_safe_basal profile) := by
  unfold set_temp_basal
  unfold get_max_safe_basal at hsafe ⊢
  dsimp only
  split_ifs with h1 h2 h3 h4 h5 h6 h7 h8 h9 <;>
    first
      | (left; rfl)
      | (right; exact ⟨0, rfl, le_refl 0, hsafe⟩)
      | (right; refine ⟨_, rfl, ?_, ?_⟩ <;> first | linarith | rfl)
      | (right; refine ⟨_, rfl, le_refl _, ?_⟩; linarith)

/-- Witness for `set_temp_basal_rate_clamped`: requesting 10 U/h against
the base profile (ceiling 2.4 U/h). -/
theorem set_temp_basal_rate_clamped_witness :
    (0 ≤ get_max_safe_basal baseProfile) ∧
    ((set_temp_basal 10 30 baseProfile {} ⟨0, 0, 0⟩).rate = RT.rate {} ∨
     (∃ r, (set_temp_basal 10 30 baseProfile {} ⟨0, 0, 0⟩).rate = some r ∧
       0 ≤ r ∧ r ≤ get_max_safe_basal baseProfile)) :=
  ⟨by norm_num [get_max_safe_basal, baseProfile],
   set_temp_basal_rate_clamped 10 30 baseProfile {} ⟨0, 0, 0⟩
     (by norm_num [get_max_safe_basal, baseProfile])⟩

/-! ### C5: the sensor-fault guard is terminal and safe -/

/-- C5: whenever the sensor-fault condition holds (BG ≤ 0.6 mmol/L, noise
≥ 3, BG sample more than 12 min old or more than 5 min in the future, or
flat BGs with BG > 3.3), `determine_basal_autoisf` terminates in the guard
with exactly one of: a 30-minute neutral temp replacing a temp whose rate
exceeds basal, a 30-minute zero temp shortening a longer zero temp, or a
no-op; it never reaches the dosing computation (no predictions and no
insulin requirement are produced) and never signals an error. -/
theorem sensor_fault_guard_terminal (inp : Inputs) (h : guardCondition inp) :
    (determine_basal_autoisf inp).predBGs = none ∧
    (determine_basal_autoisf inp).insulinReq = none ∧
    ((inp.currenttemp.rate > inp.profile.current_basal ∧
        (determine_basal_autoisf inp).rate = some inp.profile.current_basal ∧
        (determine_basal_autoisf inp).duration = some 30) ∨
     (¬inp.currenttemp.rate > inp.profile.current_basal ∧
        inp.currenttemp.rate = 0 ∧ inp.currenttemp.duration > 30 ∧
        (determine_basal_autoisf inp).rate = some 0 ∧
        (determine_basal_autoisf inp).duration = some 30) ∨
     (¬inp.currenttemp.rate > inp.profile.current_basal ∧
        ¬(inp.currenttemp.rate = 0 ∧ inp.currenttemp.duration > 30) ∧
        (determine_basal_autoisf inp).rate = none ∧
        (determine_basal_autoisf inp).duration = none)) := by
  unfold determine_basal_autoisf
  rw [if_pos h]
  unfold guardRT
  dsimp only
  split_ifs with h1 h2
  · exact ⟨rfl, rfl, Or.inl ⟨h1, rfl, rfl⟩⟩
  · exact ⟨rfl, rfl, Or.inr (Or.inl ⟨h1, h2.1, h2.2, rfl, rfl⟩)⟩
  · exact ⟨rfl, rfl, Or.inr (Or.inr ⟨h1, h2, rfl, rfl⟩)⟩

/-- High-noise input with a long-running zero temp for the C5 witness. -/
def inpC5 : Inputs :=
  { baseInputs with
    glucose_status := { baseGlucose with noise := 4 }
    currenttemp := { duration := 60, rate := 0, minutes_running := 10 } }

/-- Witness for `sensor_fault_guard_terminal`: noise 4 with a 60-minute
zero temp running (it is shortened to 30 minutes). -/
theorem sensor_fault_guard_terminal_witness :
    guardCondition inpC5 ∧
    (determine_basal_autoisf inpC5).predBGs = none ∧
    (determine_basal_autoisf inpC5).insulinReq = none ∧
    ((inpC5.currenttemp.rate > inpC5.profile.current_basal ∧
        (determine_basal_autoisf inpC5).rate = some inpC5.profile.current_basal ∧
        (determine_basal_autoisf inpC5).duration = some 30) ∨
     (¬inpC5.currenttemp.rate > inpC5.profile.current_basal ∧
        inpC5.currenttemp.rate = 0 ∧ inpC5.currenttemp.duration > 30 ∧
        (determine_basal_autoisf inpC5).rate = some 0 ∧
        (determine_basal_autoisf inpC5).duration = some 30) ∨
     (¬inpC5.currenttemp.rate > inpC5.profile.current_basal ∧
        ¬(inpC5.currenttemp.rate = 0 ∧ inpC5.currenttemp.duration > 30) ∧
        (determine_basal_autoisf inpC5).rate = none ∧
        (determine_basal_autoisf inpC5).duration = none)) := by
  have hg : guardCondition inpC5 := by
    norm_num [guardCondition, minAgo, round_dec, pyRound, inpC5, baseInputs,
      baseGlucose]
  exact ⟨hg, sensor_fault_guard_terminal inpC5 hg⟩

/-! ### C4: degenerate divisors raise instead of contributing zero -/

/-- C4: with a zero carb ratio (line 562) or a zero ISF (line 591, where
`csf = sens/carb_ratio = 0` makes `totalCI/csf` a zero division), the
Python code raises `ZeroDivisionError` instead of treating the degenerate
term as contributing zero; the fallible model of those two divisions
errors at both failing inputs, so no Result (and in particular no
rate/insulinReq) is produced at all. -/
theorem degenerate_divisors_raise :
    carbScaleFactors 6 0 0 3 = Except.error () ∧
    carbScaleFactors 0 10 0 3 = Except.error () := by
  constructor <;>
    norm_num [carbScaleFactors, checkedDiv, Bind.bind, Except.bind]

/-! ### C8: autosens target rescaling floors only the target -/

/-- Profile enabling the resistance-lowers-target rescaling. -/
def profC8 : OapsProfileAutoIsf := { baseProfile with resistance_lowers_target := true }

/-- C8 counterexample: with `resistance_lowers_target` and autosens ratio
2 (no temp target), rescaling `min_bg = 4.5` gives
`round₁((4.5−3.3)/2) + 3.3 = 3.9`, which stays below 4.4: `min_bg` (and
`max_bg`) are not floored at 4.4 — only `target_bg` is. -/
theorem rescale_floor_counterexample :
    (adjustTargetsAutosens profC8 2 (9/2) (9/2) (9/2)).1 = 39/10 ∧
    ¬((22/5 : ℚ) ≤ (adjustTargetsAutosens profC8 2 (9/2) (9/2) (9/2)).1) ∧
    (adjustTargetsAutosens profC8 2 (9/2) (9/2) (9/2)).2.2 = 22/5 := by
  refine ⟨?_, ?_, ?_⟩ <;>
    norm_num [adjustTargetsAutosens, profC8, baseProfile, round_dec, pyRound]

/-- C8 (amended): when no temp-target is set and the autosens ratio
deviates from 1 in a direction enabled by the profile flags, `min_bg`,
`max_bg` and `target_bg` are each rescaled by
`round₁((v − 3.3)/ratio) + 3.3`, but only `target_bg` is floored at 4.4
mmol/L; `min_bg` and `max_bg` take the rescaled value unfloored. -/
theorem adjust_targets_autosens_formula (profile : OapsProfileAutoIsf)
    (r m M t : ℚ)
    (h : ¬profile.temptarget_set ∧
      ((profile.sensitivity_raises_target ∧ r < 1) ∨
       (profile.resistance_lowers_target ∧ r > 1))) :
    adjustTargetsAutosens profile r m M t =
      (round_dec ((m - 33/10) / r) 1 + 33/10,
       round_dec ((M - 33/10) / r) 1 + 33/10,
       max (22/5) (round_dec ((t - 33/10) / r) 1 + 33/10)) ∧
    22/5 ≤ (adjustTargetsAutosens profile r m M t).2.2 := by
  unfold adjustTargetsAutosens
  rw [if_pos h]
  exact ⟨rfl, le_max_left _ _⟩

/-- Witness for `adjust_targets_autosens_formula` at ratio 2 on `profC8`. -/
theorem adjust_targets_autosens_formula_witness :
    (¬profC8.temptarget_set ∧
      ((profC8.sensitivity_raises_target ∧ (2:ℚ) < 1) ∨
       (profC8.resistance_lowers_target ∧ (2:ℚ) > 1))) ∧
    (adjustTargetsAutosens profC8 2 (9/2) (9/2) 5 =
      (round_dec (((9/2) - 33/10) / 2) 1 + 33/10,
       round_dec (((9/2) - 33/10) / 2) 1 + 33/10,
       max (22/5) (round_dec ((5 - 33/10) / 2) 1 + 33/10)) ∧
     22/5 ≤ (adjustTargetsAutosens profC8 2 (9/2) (9/2) 5).2.2) :=
  ⟨by norm_num [profC8, baseProfile],
   adjust_targets_autosens_formula profC8 2 (9/2) (9/2) 5
     (by norm_num [profC8, baseProfile])⟩

/-! ### C2: the deep-low branch -/

theorem buildRT_rate_duration_none (inp : Inputs) :
    (buildRT inp).rate = none ∧ (buildRT inp).duration = none := by
  unfold buildRT
  dsimp only
  split_ifs <;> exact ⟨rfl, rfl⟩

theorem deepLowDuration_bounds (inp : Inputs) :
    30 ≤ deepLowDuration inp ∧ deepLowDuration inp ≤ 120 ∧
    30 ∣ deepLowDuration inp := by
  unfold deepLowDuration
  dsimp only
  omega

/-- Calling the clamping helper with rate 0 (and a nonnegative safe-basal
ceiling) either returns the passed result unchanged, cancels the running
temp (duration 0, rate 0), or commits the requested zero temp. -/
theorem set_temp_basal_zero_cases (d : ℤ) (profile : OapsProfileAutoIsf)
    (rT : RT) (currenttemp : CurrentTemp)
    (hsafe : 0 ≤ get_max_safe_basal profile) :
    set_temp_basal 0 d profile rT currenttemp = rT ∨
    ((set_temp_basal 0 d profile rT currenttemp).rate = some 0 ∧
      ((set_temp_basal 0 d profile rT currenttemp).duration = some 0 ∨
       (set_temp_basal 0 d profile rT currenttemp).duration = some d)) := by
  unfold set_temp_basal
  unfold get_max_safe_basal at hsafe
  dsimp only
  rw [if_neg (lt_irrefl (0 : ℚ)), if_neg (not_lt.mpr hsafe)]
  split_ifs <;> simp

/-- C2 (amended): whenever the deep-low branch fires (BG below
`threshold = minBg − 0.5·(minBg − 2.2)` or `minGuardBG` below threshold,
without the negative-IOB rising-delta advisory exception), the engine
routes a zero-rate request with a duration that is a multiple of 30 in
[30, 120] through the clamping helper; the returned Result then either
commits that zero temp (rate 0 and such a duration), cancels a running
temp (rate 0, duration 0, when the profile basal is itself 0 and
`skip_neutral_temps` is set), or is a no-op leaving an equivalent zero
temp running (no rate or duration emitted). -/
theorem deep_low_zero_temp (inp : Inputs)
    (hg : ¬guardCondition inp) (hf : deepLowFires inp)
    (hsafe : 0 ≤ get_max_safe_basal inp.profile) :
    ((determine_basal_autoisf inp).rate = none ∧
     (determine_basal_autoisf inp).duration = none) ∨
    ((determine_basal_autoisf inp).rate = some 0 ∧
      ((determine_basal_autoisf inp).duration = some 0 ∨
       (∃ d : ℤ, (determine_basal_autoisf inp).duration = some d ∧
         30 ≤ d ∧ d ≤ 120 ∧ 30 ∣ d))) := by
  have hres : determine_basal_autoisf inp =
      set_temp_basal 0 (deepLowDuration inp) inp.profile (buildRT inp)
        inp.currenttemp := by
    unfold determine_basal_autoisf
    rw [if_neg hg]
    unfold dosingRT
    dsimp only
    rw [if_pos hf]
  rw [hres]
  rcases set_temp_basal_zero_cases (deepLowDuration inp) inp.profile
      (buildRT inp) inp.currenttemp hsafe with h | ⟨hr, hd⟩
  · rw [h]
    exact Or.inl (buildRT_rate_duration_none inp)
  · refine Or.inr ⟨hr, ?_⟩
    rcases hd with hd | hd
    · exact Or.inl hd
    · exact Or.inr ⟨deepLowDuration inp, hd, (deepLowDuration_bounds inp).1,
        (deepLowDuration_bounds inp).2.1, (deepLowDuration_bounds inp).2.2⟩

/-- Deep-low input (BG 3.0 < threshold 3.1) with a 120-minute zero temp
already running. -/
def inpC2 : Inputs :=
  { baseInputs with currenttemp := { duration := 120, rate := 0, minutes_running := 0 } }

set_option maxHeartbeats 2000000 in
/-- C2 counterexample: at BG 3.0 mmol/L (threshold 3.1) with a 120-minute
zero temp already running, the deep-low branch fires but the clamping
helper's "no temp required" path returns without emitting any rate or
duration — the Result does not carry `rate = 0` with a 30-multiple
duration in [30, 120]. -/
theorem deep_low_no_temp_counterexample :
    ¬guardCondition inpC2 ∧ deepLowFires inpC2 ∧
    (determine_basal_autoisf inpC2).rate = none ∧
    (determine_basal_autoisf inpC2).duration = none := by
  refine ⟨?_, ?_, ?_, ?_⟩ <;>
    norm_num [determine_basal_autoisf, guardCondition, guardRT, minAgo,
      dosingRT, deepLowFires, advisoryCondition, deepLowDuration, buildRT,
      midCtx, carbCtx, preCtx, runLoop, predStep, initLoopState, iobTrimmedR,
      ztTrimmedR, cobTrimmedR, uamTrimmedR, trimDup, trimZT, clampBG, toMgdl,
      pyOr, cobActive, ciActive, adjustTargetsAutosens, round_dec, pyRound,
      calculate_expected_delta, enable_smb, set_temp_basal, inpC2, baseInputs,
      baseProfile, baseGlucose, baseMeal, List.foldl, List.findIdx?, Int.fdiv]

set_option maxHeartbeats 2000000 in
/-- Witness for `deep_low_zero_temp` on the base input (BG 3.0, no temp
running): the committed zero temp has duration 30. -/
theorem deep_low_zero_temp_witness :
    (¬guardCondition baseInputs ∧ deepLowFires baseInputs ∧
      0 ≤ get_max_safe_basal baseInputs.profile) ∧
    (((determine_basal_autoisf baseInputs).rate = none ∧
      (determine_basal_autoisf baseInputs).duration = none) ∨
     ((determine_basal_autoisf baseInputs).rate = some 0 ∧
       ((determine_basal_autoisf baseInputs).duration = some 0 ∨
        (∃ d : ℤ, (determine_basal_autoisf baseInputs).duration = some d ∧
          30 ≤ d ∧ d ≤ 120 ∧ 30 ∣ d)))) := by
  have h1 : ¬guardCondition baseInputs := by
    norm_num [guardCondition, minAgo, round_dec, pyRound, baseInputs, baseGlucose]
  have h2 : deepLowFires baseInputs := by
    norm_num [deepLowFires, advisoryCondition, midCtx, carbCtx, preCtx,
      runLoop, predStep, initLoopState, iobTrimmedR, ztTrimmedR, cobTrimmedR,
      uamTrimmedR, trimDup, trimZT, clampBG, toMgdl, pyOr, cobActive, ciActive,
      adjustTargetsAutosens, round_dec, pyRound, calculate_expected_delta,
      enable_smb, baseInputs, baseProfile, baseGlucose, baseMeal, List.foldl,
      List.findIdx?]
  have h3 : 0 ≤ get_max_safe_basal baseInputs.profile := by
    norm_num [get_max_safe_basal, baseInputs, baseProfile]
  exact ⟨⟨h1, h2, h3⟩, deep_low_zero_temp baseInputs h1 h2 h3⟩

/-! ### C3: bounds on the exported prediction arrays -/

theorem clampBG_bounds (x : ℚ) : 11/5 ≤ clampBG x ∧ clampBG x ≤ 223/10 := by
  unfold clampBG
  constructor
  · refine le_round_dec_of_le 1 ?_ ?_
    · exact le_min (by norm_num) (le_max_left _ _)
    · norm_num [round_dec, pyRound]
  · refine round_dec_le_of_le 1 ?_ ?_
    · exact min_le_left _ _
    · norm_num [round_dec, pyRound]

theorem toMgdl_clampBG_bounds (x : ℚ) :
    40 ≤ toMgdl (clampBG x) ∧ toMgdl (clampBG x) ≤ 401 := by
  obtain ⟨h1, h2⟩ := clampBG_bounds x
  unfold toMgdl
  constructor
  · have : pyRound (198/5) ≤ pyRound (clampBG x * 18) :=
      pyRound_mono (by linarith)
    have h40 : pyRound (198/5) = 40 := by norm_num [pyRound]
    omega
  · have : pyRound (clampBG x * 18) ≤ pyRound (2007/5) :=
      pyRound_mono (by linarith)
    have h401 : pyRound (2007/5) = 401 := by norm_num [pyRound]
    omega

theorem trimDup_subset : ∀ l : List ℚ, ∀ x ∈ trimDup l, x ∈ l
  | a :: b :: rest => by
    unfold trimDup
    split_ifs with h
    · intro x hx
      exact List.mem_cons_of_mem a (trimDup_subset (b :: rest) x hx)
    · intro x hx
      exact hx
  | [] => by intro x hx; exact hx
  | [a] => by intro x hx; exact hx

theorem trimZT_subset (t : ℚ) : ∀ l : List ℚ, ∀ x ∈ trimZT t l, x ∈ l
  | a :: b :: rest => by
    unfold trimZT
    split_ifs with h
    · intro x hx
      exact List.mem_cons_of_mem a (trimZT_subset t (b :: rest) x hx)
    · intro x hx
      exact hx
  | [] => by intro x hx; exact hx
  | [a] => by intro x hx; exact hx

/-- Every value exported from a duplicate-trimmed clamped curve lies in
`[40, 401]` mg/dL. -/
theorem mem_export_trimDup_bounds (l : List ℚ) (v : ℤ)
    (hv : v ∈ ((trimDup (l.map clampBG)).reverse).map toMgdl) :
    40 ≤ v ∧ v ≤ 401 := by
  obtain ⟨x, hx, rfl⟩ := List.mem_map.mp hv
  have hx2 : x ∈ trimDup (l.map clampBG) := List.mem_reverse.mp hx
  have hx3 : x ∈ l.map clampBG := trimDup_subset _ x hx2
  obtain ⟨y, _, rfl⟩ := List.mem_map.mp hx3
  exact toMgdl_clampBG_bounds y

/-- Every value exported from the ZT-trimmed clamped curve lies in
`[40, 401]` mg/dL. -/
theorem mem_export_trimZT_bounds (t : ℚ) (l : List ℚ) (v : ℤ)
    (hv : v ∈ ((trimZT t (l.map clampBG)).reverse).map toMgdl) :
    40 ≤ v ∧ v ≤ 401 := by
  obtain ⟨x, hx, rfl⟩ := List.mem_map.mp hv
  have hx2 : x ∈ trimZT t (l.map clampBG) := List.mem_reverse.mp hx
  have hx3 : x ∈ l.map clampBG := trimZT_subset t _ x hx2
  obtain ⟨y, _, rfl⟩ := List.mem_map.mp hx3
  exact toMgdl_clampBG_bounds y

theorem set_temp_basal_predBGs (rate : ℚ) (duration : ℤ)
    (profile : OapsProfileAutoIsf) (rT : RT) (currenttemp : CurrentTemp) :
    (set_temp_basal rate duration profile rT currenttemp).predBGs = rT.predBGs := by
  unfold set_temp_basal
  dsimp only
  split_ifs <;> rfl

theorem buildRT_predBGs (inp : Inputs) :
    (buildRT inp).predBGs = some (midCtx inp).predictions := by
  unfold buildRT
  dsimp only
  split_ifs <;> rfl

set_option maxHeartbeats 1000000 in
theorem dosingRT_predBGs (inp : Inputs) :
    (dosingRT inp).predBGs = some (midCtx inp).predictions := by
  unfold dosingRT
  dsimp only
  simp only [apply_ite RT.predBGs, set_temp_basal_predBGs, ite_self,
    buildRT_predBGs]

theorem guardRT_predBGs (inp : Inputs) : (guardRT inp).predBGs = none := by
  unfold guardRT
  dsimp only
  split_ifs <;> rfl

/-- C3 (amended): every value in every prediction array actually emitted
in the Result (IOB, ZT, COB, UAM) is an integer mg/dL value in
`[40, 401]` — the underlying mmol/L curves are clamped to `[2.2, 22.3]`,
whose display scaling reaches `round(22.3·18) = 401`, one step above the
claimed mg/dL cap of 400 — and the aCOB array is never emitted at all. -/
theorem predictions_export_bounds (inp : Inputs) (p : Predictions)
    (hp : (determine_basal_autoisf inp).predBGs = some p) :
    p.aCOB = none ∧
    (∀ l, p.IOB = some l → ∀ v ∈ l, 40 ≤ v ∧ v ≤ 401) ∧
    (∀ l, p.ZT = some l → ∀ v ∈ l, 40 ≤ v ∧ v ≤ 401) ∧
    (∀ l, p.COB = some l → ∀ v ∈ l, 40 ≤ v ∧ v ≤ 401) ∧
    (∀ l, p.UAM = some l → ∀ v ∈ l, 40 ≤ v ∧ v ≤ 401) := by
  unfold determine_basal_autoisf at hp
  by_cases hg : guardCondition inp
  · rw [if_pos hg, guardRT_predBGs] at hp
    exact absurd hp (by simp)
  · rw [if_neg hg, dosingRT_predBGs] at hp
    have hpeq : p = (midCtx inp).predictions := (Option.some.inj hp).symm
    subst hpeq
    have hIOB : (midCtx inp).predictions.IOB =
        some (((iobTrimmedR inp).reverse).map toMgdl) := rfl
    have hZT : (midCtx inp).predictions.ZT =
        some (((ztTrimmedR inp).reverse).map toMgdl) := rfl
    have hCOB : (midCtx inp).predictions.COB =
        (if cobActive inp then some (((cobTrimmedR inp).reverse).map toMgdl)
         else none) := rfl
    have hUAM : (midCtx inp).predictions.UAM =
        (if ciActive inp ∧ inp.profile.enable_uam then
          some (((uamTrimmedR inp).reverse).map toMgdl)
         else none) := rfl
    have haCOB : (midCtx inp).predictions.aCOB = none := rfl
    refine ⟨haCOB, ?_, ?_, ?_, ?_⟩
    · intro l hl v hv
      rw [hIOB] at hl
      obtain rfl : ((iobTrimmedR inp).reverse).map toMgdl = l := Option.some.inj hl
      exact mem_export_trimDup_bounds _ v (by rwa [iobTrimmedR] at hv)
    · intro l hl v hv
      rw [hZT] at hl
      obtain rfl : ((ztTrimmedR inp).reverse).map toMgdl = l := Option.some.inj hl
      exact mem_export_trimZT_bounds _ _ v (by rwa [ztTrimmedR] at hv)
    · intro l hl v hv
      rw [hCOB] at hl
      split_ifs at hl
      · obtain rfl : ((cobTrimmedR inp).reverse).map toMgdl = l := Option.some.inj hl
        exact mem_export_trimDup_bounds _ v (by rwa [cobTrimmedR] at hv)
    · intro l hl v hv
      rw [hUAM] at hl
      split_ifs at hl
      · obtain rfl : ((uamTrimmedR inp).reverse).map toMgdl = l := Option.some.inj hl
        exact mem_export_trimDup_bounds _ v (by rwa [uamTrimmedR] at hv)

/-- High-BG input (25 mmol/L) whose clamped predictions export as 401
mg/dL. -/
def inpC3 : Inputs :=
  { baseInputs with glucose_status := { baseGlucose with glucose := 25 } }

set_option maxHeartbeats 2000000 in
/-- C3 counterexample: at BG 25 mmol/L the IOB prediction curve is
clamped to 22.3 mmol/L and exported as `round(22.3·18) = 401` mg/dL,
outside the claimed `[40, 400]` band; the Result also carries no aCOB
array at all (it is computed but never exported). -/
theorem prediction_export_401_counterexample :
    (determine_basal_autoisf inpC3).predBGs =
      some ⟨some [401, 401], none, none, none, some [401, 401]⟩ ∧
    (401 : ℤ) ∈ [(401 : ℤ), 401] ∧ ¬((401 : ℤ) ≤ 400) := by
  refine ⟨?_, by norm_num, by norm_num⟩
  norm_num [determine_basal_autoisf, guardCondition, guardRT, minAgo,
    dosingRT, deepLowFires, advisoryCondition, deepLowDuration, buildRT,
    midCtx, carbCtx, preCtx, runLoop, predStep, initLoopState, iobTrimmedR,
    ztTrimmedR, cobTrimmedR, uamTrimmedR, trimDup, trimZT, clampBG, toMgdl,
    pyOr, cobActive, ciActive, adjustTargetsAutosens, round_dec, pyRound,
    calculate_expected_delta, enable_smb, set_temp_basal, inpC3, baseInputs,
    baseProfile, baseGlucose, baseMeal, List.foldl, List.findIdx?, Int.fdiv]

set_option maxHeartbeats 2000000 in
/-- Witness for `predictions_export_bounds` on the base input. -/
theorem predictions_export_bounds_witness :
    (determine_basal_autoisf baseInputs).predBGs =
      some ⟨some [54, 54], none, none, none, some [54, 54]⟩ ∧
    ((⟨some [54, 54], none, none, none, some [54, 54]⟩ : Predictions).aCOB = none ∧
     (∀ l, (⟨some [54, 54], none, none, none, some [54, 54]⟩ : Predictions).IOB = some l →
        ∀ v ∈ l, 40 ≤ v ∧ v ≤ 401) ∧
     (∀ l, (⟨some [54, 54], none, none, none, some [54, 54]⟩ : Predictions).ZT = some l →
        ∀ v ∈ l, 40 ≤ v ∧ v ≤ 401) ∧
     (∀ l, (⟨some [54, 54], none, none, none, some [54, 54]⟩ : Predictions).COB = some l →
        ∀ v ∈ l, 40 ≤ v ∧ v ≤ 401) ∧
     (∀ l, (⟨some [54, 54], none, none, none, some [54, 54]⟩ : Predictions).UAM = some l →
        ∀ v ∈ l, 40 ≤ v ∧ v ≤ 401)) := by
  have hp : (determine_basal_autoisf baseInputs).predBGs =
      some ⟨some [54, 54], none, none, none, some [54, 54]⟩ := by
    norm_num [determine_basal_autoisf, guardCondition, guardRT, minAgo,
      dosingRT, deepLowFires, advisoryCondition, deepLowDuration, buildRT,
      midCtx, carbCtx, preCtx, runLoop, predStep, initLoopState, iobTrimmedR,
      ztTrimmedR, cobTrimmedR, uamTrimmedR, trimDup, trimZT, clampBG, toMgdl,
      pyOr, cobActive, ciActive, adjustTargetsAutosens, round_dec, pyRound,
      calculate_expected_delta, enable_smb, set_temp_basal, baseInputs,
      baseProfile, baseGlucose, baseMeal, List.foldl, List.findIdx?, Int.fdiv]
  exact ⟨hp, predictions_export_bounds baseInputs _ hp⟩

/-! ### C6: the eventual BG is raised to the last COB-curve value -/

theorem round_dec_one_idem (v : ℚ) :
    round_dec (round_dec v 1) 1 = round_dec v 1 := by
  unfold round_dec
  have h : (pyRound (v * 10 ^ 1) : ℚ) / 10 ^ 1 * 10 ^ 1 =
      ((pyRound (v * 10 ^ 1) : ℚ)) := by
    field_simp
  rw [h, pyRound_intCast]

theorem round_dec_one_clampBG (y : ℚ) :
    round_dec (clampBG y) 1 = clampBG y := by
  unfold clampBG
  exact round_dec_one_idem _

/-- The head (Python's last element) of a clamped, trimmed curve is a
fixed point of one-decimal rounding. -/
theorem round_dec_one_trimDup_headI (l : List ℚ) :
    round_dec (trimDup (l.map clampBG)).headI 1 = (trimDup (l.map clampBG)).headI := by
  cases h : trimDup (l.map clampBG) with
  | nil =>
    have hd : (List.headI ([] : List ℚ)) = 0 := rfl
    rw [hd]
    norm_num [round_dec, pyRound]
  | cons a t =>
    have ha : a ∈ trimDup (l.map clampBG) := by rw [h]; exact List.mem_cons_self a t
    have ha2 : a ∈ l.map clampBG := trimDup_subset _ a ha
    obtain ⟨y, _, rfl⟩ := List.mem_map.mp ha2
    simpa using round_dec_one_clampBG y

theorem set_temp_basal_eventualBG (rate : ℚ) (duration : ℤ)
    (profile : OapsProfileAutoIsf) (rT : RT) (currenttemp : CurrentTemp) :
    (set_temp_basal rate duration profile rT currenttemp).eventualBG = rT.eventualBG := by
  unfold set_temp_basal
  dsimp only
  split_ifs <;> rfl

theorem buildRT_eventualBG (inp : Inputs) :
    (buildRT inp).eventualBG = (midCtx inp).eventualBGField := by
  unfold buildRT
  dsimp only
  split_ifs <;> rfl

set_option maxHeartbeats 1000000 in
theorem dosingRT_eventualBG (inp : Inputs) :
    (dosingRT inp).eventualBG = (midCtx inp).eventualBGField := by
  unfold dosingRT
  dsimp only
  simp only [apply_ite RT.eventualBG, set_temp_basal_eventualBG, ite_self,
    buildRT_eventualBG]

/-- C6: whenever carbs are on board and the carb impact is positive
(`meal_cob > 0` and `ci > 0 ∨ remainingCIpeak > 0`), and the sensor-fault
guard does not fire, the Result's `eventualBG` is at least the last value
of the clamped COB prediction curve (`(cobTrimmedR inp).headI`, the value
whose mg/dL image ends the exported COB array). -/
theorem eventualBG_ge_last_COB (inp : Inputs)
    (hg : ¬guardCondition inp) (hcob : cobActive inp) :
    (midCtx inp).lastCOBpredBG = some (cobTrimmedR inp).headI ∧
    ∃ e, (determine_basal_autoisf inp).eventualBG = some e ∧
      (cobTrimmedR inp).headI ≤ e := by
  have hci : ciActive inp := hcob.2
  have hlast : (midCtx inp).lastCOBpredBG =
      (if cobActive inp then some (cobTrimmedR inp).headI else none) := rfl
  have hres : (determine_basal_autoisf inp).eventualBG = (midCtx inp).eventualBGField := by
    unfold determine_basal_autoisf
    rw [if_neg hg]
    exact dosingRT_eventualBG inp
  have hfield : (midCtx inp).eventualBGField =
      (if ciActive inp then some (midCtx inp).eventualBG
       else some (preCtx inp).eventualBG0) := rfl
  have hev : (midCtx inp).eventualBG =
      (if ciActive inp ∧ inp.profile.enable_uam then
        max (if cobActive inp then
              max (preCtx inp).eventualBG0 (round_dec (cobTrimmedR inp).headI 1)
            else (preCtx inp).eventualBG0)
          (round_dec (uamTrimmedR inp).headI 1)
       else
        (if cobActive inp then
          max (preCtx inp).eventualBG0 (round_dec (cobTrimmedR inp).headI 1)
        else (preCtx inp).eventualBG0)) := rfl
  refine ⟨by rw [hlast, if_pos hcob], (midCtx inp).eventualBG, ?_, ?_⟩
  · rw [hres, hfield, if_pos hci]
  · rw [hev]
    have hidem : round_dec (cobTrimmedR inp).headI 1 = (cobTrimmedR inp).headI := by
      unfold cobTrimmedR
      exact round_dec_one_trimDup_headI _
    split_ifs with h1
    · calc (cobTrimmedR inp).headI
          = round_dec (cobTrimmedR inp).headI 1 := hidem.symm
        _ ≤ max (preCtx inp).eventualBG0 (round_dec (cobTrimmedR inp).headI 1) :=
            le_max_right _ _
        _ ≤ _ := le_max_left _ _
    · calc (cobTrimmedR inp).headI
          = round_dec (cobTrimmedR inp).headI 1 := hidem.symm
        _ ≤ max (preCtx inp).eventualBG0 (round_dec (cobTrimmedR inp).headI 1) :=
            le_max_right _ _

/-- Rising BG at 7 mmol/L for the C6 witness. -/
def glucoseC6 : GlucoseStatus :=
  { glucose := 7, delta := 1/5, short_avg_delta := 1/5, long_avg_delta := 1/5
    date := 0, noise := 0 }

/-- Meal input: 40 g logged, 40 g on board, rising BG at 7 mmol/L. -/
def inpC6 : Inputs :=
  { baseInputs with
    glucose_status := glucoseC6
    meal_data := { baseMeal with carbs := 40, meal_cob := 40 } }

set_option maxHeartbeats 2000000 in
/-- Witness for `eventualBG_ge_last_COB` on `inpC6`. -/
theorem eventualBG_ge_last_COB_witness :
    (¬guardCondition inpC6 ∧ cobActive inpC6) ∧
    ((midCtx inpC6).lastCOBpredBG = some (cobTrimmedR inpC6).headI ∧
     ∃ e, (determine_basal_autoisf inpC6).eventualBG = some e ∧
       (cobTrimmedR inpC6).headI ≤ e) := by
  have h1 : ¬guardCondition inpC6 := by
    norm_num [guardCondition, minAgo, round_dec, pyRound, inpC6, baseInputs,
      glucoseC6]
  have h2 : cobActive inpC6 := by
    norm_num [cobActive, carbCtx, preCtx, adjustTargetsAutosens, round_dec,
      pyRound, calculate_expected_delta, enable_smb, inpC6, baseInputs,
      baseProfile, glucoseC6, baseMeal]
  exact ⟨⟨h1, h2⟩, eventualBG_ge_last_COB inpC6 h1 h2⟩

/-! ### C7: monotonicity of eventualBG in the glucose input -/

/-- Replace only the glucose reading, holding every other input fixed. -/
def setBG (inp : Inputs) (g : ℚ) : Inputs :=
  { inp with glucose_status := { inp.glucose_status with glucose := g } }

theorem headI_map_add (d : ℚ) (l : List ℚ) (h : l ≠ []) :
    (l.map (· + d)).headI = l.headI + d := by
  cases l with
  | nil => exact absurd rfl h
  | cons a t => rfl

theorem headI_map_clampBG (l : List ℚ) (h : l ≠ []) :
    (l.map clampBG).headI = clampBG l.headI := by
  cases l with
  | nil => exact absurd rfl h
  | cons a t => rfl

theorem trimDup_headI : ∀ l : List ℚ, (trimDup l).headI = l.headI
  | a :: b :: rest => by
    unfold trimDup
    split_ifs with h
    · rw [trimDup_headI (b :: rest)]
      exact h.1.symm
    · rfl
  | [] => rfl
  | [a] => rfl

theorem clampBG_mono {x y : ℚ} (h : x ≤ y) : clampBG x ≤ clampBG y := by
  unfold clampBG
  exact round_dec_mono 1 (min_le_min le_rfl (max_le_max le_rfl h))

/-- The five prediction lists of one loop state are those of another,
shifted by `d` (and nonempty). -/
def shiftedLists (d : ℚ) (s t : LoopState) : Prop :=
  t.iobR = s.iobR.map (· + d) ∧ t.cobR = s.cobR.map (· + d) ∧
  t.acobR = s.acobR.map (· + d) ∧ t.uamR = s.uamR.map (· + d) ∧
  t.ztR = s.ztR.map (· + d) ∧
  s.iobR ≠ [] ∧ s.cobR ≠ [] ∧ s.acobR ≠ [] ∧ s.uamR ≠ [] ∧ s.ztR ≠ []

/-- One prediction-loop step preserves the shift relation: every
increment added in a step depends only on the iob tick, the carb context
and the list lengths, never on the list values. -/
theorem predStep_shift (inp : Inputs) (tick : IobTotal) (d : ℚ)
    (s t : LoopState) (h : shiftedLists d s t) :
    shiftedLists d (predStep inp s tick) (predStep inp t tick) := by
  obtain ⟨h1, h2, h3, h4, h5, n1, n2, n3, n4, n5⟩ := h
  unfold predStep shiftedLists
  dsimp only
  rw [h1, h2, h3, h4, h5]
  simp only [List.length_map]
  rw [headI_map_add d _ n1, headI_map_add d _ n2, headI_map_add d _ n3,
    headI_map_add d _ n4, headI_map_add d _ n5]
  refine ⟨?_, ?_, ?_, ?_, ?_, ?_, ?_, ?_, ?_, ?_⟩
  · split_ifs with hl
    · rw [List.map_cons]; congr 1; ring
    · rfl
  · split_ifs with hl
    · rw [List.map_cons]; congr 1; ring
    · rfl
  · split_ifs with hl
    · rw [List.map_cons]; congr 1; ring
    · rfl
  · split_ifs with hl
    · rw [List.map_cons]; congr 1; ring
    · rfl
  · split_ifs with hl
    · rw [List.map_cons]; congr 1; ring
    · rfl
  · split_ifs with hl
    · exact List.cons_ne_nil _ _
    · exact n1
  · split_ifs with hl
    · exact List.cons_ne_nil _ _
    · exact n2
  · split_ifs with hl
    · exact List.cons_ne_nil _ _
    · exact n3
  · split_ifs with hl
    · exact List.cons_ne_nil _ _
    · exact n4
  · split_ifs with hl
    · exact List.cons_ne_nil _ _
    · exact n5

theorem foldl_predStep_shift (inp : Inputs) (d : ℚ) :
    ∀ (L : List IobTotal) (s t : LoopState), shiftedLists d s t →
      shiftedLists d (L.foldl (predStep inp) s) (L.foldl (predStep inp) t)
  | [], _, _, h => h
  | a :: L, s, t, h =>
    foldl_predStep_shift inp d L _ _ (predStep_shift inp a d s t h)

theorem runLoop_setBG_shift (inp : Inputs) (g g' : ℚ) :
    shiftedLists (g' - g) (runLoop (setBG inp g)) (runLoop (setBG inp g')) := by
  have hstep : predStep (setBG inp g') = predStep (setBG inp g) := rfl
  have harr : (setBG inp g').iob_data_array = inp.iob_data_array := rfl
  have harr' : (setBG inp g).iob_data_array = inp.iob_data_array := rfl
  unfold runLoop
  rw [hstep, harr, harr']
  apply foldl_predStep_shift
  unfold initLoopState shiftedLists
  refine ⟨?_, ?_, ?_, ?_, ?_, by simp, by simp, by simp, by simp, by simp⟩ <;>
    · show [(setBG inp g').glucose_status.glucose] =
        [(setBG inp g).glucose_status.glucose].map (· + (g' - g))
      show [g'] = [g].map (· + (g' - g))
      simp only [List.map_cons, List.map_nil]
      congr 1
      ring

theorem runLoop_cobR_ne_nil (inp : Inputs) (g : ℚ) :
    (runLoop (setBG inp g)).cobR ≠ [] :=
  (runLoop_setBG_shift inp g g).2.2.2.2.2.2.1

theorem runLoop_uamR_ne_nil (inp : Inputs) (g : ℚ) :
    (runLoop (setBG inp g)).uamR ≠ [] :=
  (runLoop_setBG_shift inp g g).2.2.2.2.2.2.2.2.1

theorem cobTrimmed_headI_mono (inp : Inputs) {g g' : ℚ} (h : g ≤ g') :
    (cobTrimmedR (setBG inp g)).headI ≤ (cobTrimmedR (setBG inp g')).headI := by
  obtain ⟨_, h2, _, _, _, _, n2, _, _, _⟩ := runLoop_setBG_shift inp g g'
  unfold cobTrimmedR
  rw [trimDup_headI, trimDup_headI, h2]
  rw [headI_map_clampBG _ n2,
    headI_map_clampBG _ (by simpa using n2 : (runLoop (setBG inp g)).cobR.map (· + (g' - g)) ≠ []),
    headI_map_add _ _ n2]
  exact clampBG_mono (by linarith)

theorem uamTrimmed_headI_mono (inp : Inputs) {g g' : ℚ} (h : g ≤ g') :
    (uamTrimmedR (setBG inp g)).headI ≤ (uamTrimmedR (setBG inp g')).headI := by
  obtain ⟨_, _, _, h4, _, _, _, _, n4, _⟩ := runLoop_setBG_shift inp g g'
  unfold uamTrimmedR
  rw [trimDup_headI, trimDup_headI, h4]
  rw [headI_map_clampBG _ n4,
    headI_map_clampBG _ (by simpa using n4 : (runLoop (setBG inp g)).uamR.map (· + (g' - g)) ≠ []),
    headI_map_add _ _ n4]
  exact clampBG_mono (by linarith)

theorem preCtx_naive_fmla (inp : Inputs) :
    (preCtx inp).naive_eventualBG =
      (if inp.autoIsfMode then
        round_dec (inp.glucose_status.glucose -
          (preCtx inp).iob0.iob * (preCtx inp).sens) 1
      else if (preCtx inp).iob0.iob > 0 then
        round_dec (inp.glucose_status.glucose -
          (preCtx inp).iob0.iob * (preCtx inp).sens) 1
      else
        round_dec (inp.glucose_status.glucose -
          (preCtx inp).iob0.iob * min (preCtx inp).sens inp.profile.sens) 1) := rfl

theorem preCtx_ev0_fmla (inp : Inputs) :
    (preCtx inp).eventualBG0 =
      (preCtx inp).naive_eventualBG + (preCtx inp).deviation := rfl

theorem naive_eventualBG_mono (inp : Inputs) {g g' : ℚ} (h : g ≤ g') :
    (preCtx (setBG inp g)).naive_eventualBG ≤
      (preCtx (setBG inp g')).naive_eventualBG := by
  have hiob : (preCtx (setBG inp g')).iob0 = (preCtx (setBG inp g)).iob0 := rfl
  have hsens : (preCtx (setBG inp g')).sens = (preCtx (setBG inp g)).sens := rfl
  have hmode : (setBG inp g').autoIsfMode = inp.autoIsfMode := rfl
  have hmode' : (setBG inp g).autoIsfMode = inp.autoIsfMode := rfl
  have hprof : (setBG inp g').profile = inp.profile := rfl
  have hprof' : (setBG inp g).profile = inp.profile := rfl
  have hbg : (setBG inp g').glucose_status.glucose = g' := rfl
  have hbg' : (setBG inp g).glucose_status.glucose = g := rfl
  rw [preCtx_naive_fmla, preCtx_naive_fmla, hiob, hsens, hmode, hmode',
    hprof, hprof', hbg, hbg']
  split_ifs <;> exact round_dec_mono 1 (by linarith)

theorem eventualBG0_mono (inp : Inputs) {g g' : ℚ} (h : g ≤ g') :
    (preCtx (setBG inp g)).eventualBG0 ≤ (preCtx (setBG inp g')).eventualBG0 := by
  have hdev : (preCtx (setBG inp g')).deviation = (preCtx (setBG inp g)).deviation := rfl
  rw [preCtx_ev0_fmla, preCtx_ev0_fmla, hdev]
  exact add_le_add_right (naive_eventualBG_mono inp h) _

/-- C7: holding every other input fixed (and assuming the sensor-fault
guard fires for neither run), increasing `glucose_status.glucose` never
decreases the `eventualBG` carried in the returned Result. -/
theorem eventualBG_monotone_in_glucose (inp : Inputs) (g g' : ℚ)
    (hle : g ≤ g')
    (hg1 : ¬guardCondition (setBG inp g))
    (hg2 : ¬guardCondition (setBG inp g')) :
    ∃ e e', (determine_basal_autoisf (setBG inp g)).eventualBG = some e ∧
      (determine_basal_autoisf (setBG inp g')).eventualBG = some e' ∧
      e ≤ e' := by
  have hres1 : (determine_basal_autoisf (setBG inp g)).eventualBG =
      (midCtx (setBG inp g)).eventualBGField := by
    unfold determine_basal_autoisf
    rw [if_neg hg1]
    exact dosingRT_eventualBG _
  have hres2 : (determine_basal_autoisf (setBG inp g')).eventualBG =
      (midCtx (setBG inp g')).eventualBGField := by
    unfold determine_basal_autoisf
    rw [if_neg hg2]
    exact dosingRT_eventualBG _
  have hfield1 : (midCtx (setBG inp g)).eventualBGField =
      (if ciActive (setBG inp g) then some (midCtx (setBG inp g)).eventualBG
       else some (preCtx (setBG inp g)).eventualBG0) := rfl
  have hfield2 : (midCtx (setBG inp g')).eventualBGField =
      (if ciActive (setBG inp g') then some (midCtx (setBG inp g')).eventualBG
       else some (preCtx (setBG inp g')).eventualBG0) := rfl
  have hev1 : (midCtx (setBG inp g)).eventualBG =
      (if ciActive (setBG inp g) ∧ (setBG inp g).profile.enable_uam then
        max (if cobActive (setBG inp g) then
              max (preCtx (setBG inp g)).eventualBG0
                (round_dec (cobTrimmedR (setBG inp g)).headI 1)
            else (preCtx (setBG inp g)).eventualBG0)
          (round_dec (uamTrimmedR (setBG inp g)).headI 1)
       else
        (if cobActive (setBG inp g) then
          max (preCtx (setBG inp g)).eventualBG0
            (round_dec (cobTrimmedR (setBG inp g)).headI 1)
        else (preCtx (setBG inp g)).eventualBG0)) := rfl
  have hev2 : (midCtx (setBG inp g')).eventualBG =
      (if ciActive (setBG inp g') ∧ (setBG inp g').profile.enable_uam then
        max (if cobActive (setBG inp g') then
              max (preCtx (setBG inp g')).eventualBG0
                (round_dec (cobTrimmedR (setBG inp g')).headI 1)
            else (preCtx (setBG inp g')).eventualBG0)
          (round_dec (uamTrimmedR (setBG inp g')).headI 1)
       else
        (if cobActive (setBG inp g') then
          max (preCtx (setBG inp g')).eventualBG0
            (round_dec (cobTrimmedR (setBG inp g')).headI 1)
        else (preCtx (setBG inp g')).eventualBG0)) := rfl
  have hciEq : ciActive (setBG inp g') = ciActive (setBG inp g) := rfl
  have hcobEq : cobActive (setBG inp g') = cobActive (setBG inp g) := rfl
  have huamEq : (setBG inp g').profile.enable_uam = (setBG inp g).profile.enable_uam := rfl
  have hcobMono := cobTrimmed_headI_mono inp hle
  have huamMono := uamTrimmed_headI_mono inp hle
  have hev0Mono := eventualBG0_mono inp hle
  have hcobRd := round_dec_mono 1 hcobMono
  have huamRd := round_dec_mono 1 huamMono
  have hevMono : (midCtx (setBG inp g)).eventualBG ≤ (midCtx (setBG inp g')).eventualBG := by
    rw [hev1, hev2]
    simp only [hciEq, hcobEq, huamEq]
    split_ifs with hA hB hB
    · exact max_le_max (max_le_max hev0Mono hcobRd) huamRd
    · exact max_le_max hev0Mono huamRd
    · exact max_le_max hev0Mono hcobRd
    · exact hev0Mono
  rw [hres1, hres2, hfield1, hfield2]
  simp only [hciEq]
  by_cases hci : ciActive (setBG inp g)
  · rw [if_pos hci, if_pos hci]
    exact ⟨_, _, rfl, rfl, hevMono⟩
  · rw [if_neg hci, if_neg hci]
    exact ⟨_, _, rfl, rfl, hev0Mono⟩

/-- Witness for `eventualBG_monotone_in_glucose` on the base input at
glucose 3 and 5. -/
theorem eventualBG_monotone_in_glucose_witness :
    ((3 : ℚ) ≤ 5 ∧ ¬guardCondition (setBG baseInputs 3) ∧
      ¬guardCondition (setBG baseInputs 5)) ∧
    (∃ e e', (determine_basal_autoisf (setBG baseInputs 3)).eventualBG = some e ∧
      (determine_basal_autoisf (setBG baseInputs 5)).eventualBG = some e' ∧
      e ≤ e') := by
  have h0 : (3 : ℚ) ≤ 5 := by norm_num
  have h1 : ¬guardCondition (setBG baseInputs 3) := by
    norm_num [guardCondition, minAgo, round_dec, pyRound, setBG, baseInputs,
      baseGlucose]
  have h2 : ¬guardCondition (setBG baseInputs 5) := by
    norm_num [guardCondition, minAgo, round_dec, pyRound, setBG, baseInputs,
      baseGlucose]
  exact ⟨⟨h0, h1, h2⟩, eventualBG_monotone_in_glucose baseInputs 3 5 h0 h1 h2⟩

end Aaps
